import Mathlib

/-!
Shallow embedding of the FastAPI medical-document service endpoints
(`api/nlp/chatbot/pdf_chat.py`, `api/nlp/chatbot/summary.py`,
`api/nlp/chatbot/chatbot.py`, `api/nlp/chatbot/gateway.py`,
`api/nlp/transcribe/audio.py`).

External services (S3, the LLM chains, the speech-to-text provider, the
database) are modelled as an environment of fallible calls returning
`Except String α` (an `error` models a raised Python exception with its
message).  The world state records the in-memory `active_sessions` map,
the set of temporary files on disk, the set of vector tables, and the
list of S3 uploads performed.  Python truthiness of optional strings
(`if session_id`, `if not query`, `recording_type or "clinical"`) is
modelled by `truthy`, and `str(HTTPException(s, d))` stringifies as
`"s: d"` (Starlette `HTTPException.__str__`).
-/

/-- Entry of the in-memory `active_sessions` map of `pdf_chat.py`
(lines 165-170): every entry stores `user_id`, `temp_file_path`,
`table_name` and `created_at`. -/
structure SessionEntry where
  user_id : String
  temp_file_path : String
  table_name : String
  created_at : Nat
deriving Repr, DecidableEq

/-- The `active_sessions` process-lifetime dictionary, as an association
list keyed by session id. -/
abbrev SessionMap := List (String × SessionEntry)

/-- Dictionary lookup (`active_sessions[sid]` / `sid in active_sessions`). -/
def lookupSession : SessionMap → String → Option SessionEntry
  | [], _ => none
  | (k, v) :: rest, key => if k = key then some v else lookupSession rest key

/-- Dictionary write (`active_sessions[sid] = entry` and
`active_sessions[sid].update(...)`): replaces the binding if the key is
present, appends it otherwise. -/
def setSession : SessionMap → String → SessionEntry → SessionMap
  | [], key, v => [(key, v)]
  | (k, w) :: rest, key, v =>
    if k = key then (key, v) :: rest else (k, w) :: setSession rest key v

/-- Dictionary deletion (`del active_sessions[sid]`). -/
def eraseSession (m : SessionMap) (key : String) : SessionMap :=
  m.filter (fun kv => kv.1 ≠ key)

/-- Python truthiness of an optional string: `None` and `""` are falsy. -/
def truthy : Option String → Bool
  | none => false
  | some s => decide (s ≠ "")

/-- A set of path/table names, as a duplicate-free-by-use list. -/
def addName (xs : List String) (x : String) : List String :=
  if x ∈ xs then xs else x :: xs

/-- Removal of a name (`os.remove` / `cleanup_table` / `del`). -/
def removeName (xs : List String) (x : String) : List String :=
  xs.filter (fun y => y ≠ x)

/-- Record of one S3 upload performed via `AwsUtils.upload_file_to_s3`. -/
structure S3Record where
  domain : String
  file_path : String
  upload_name : String
deriving Repr, DecidableEq

/-- Observable world state threaded through the handlers. -/
structure World where
  sessions : SessionMap
  files : List String
  tables : List String
  uploads : List S3Record
deriving Repr, DecidableEq

/-- Result dictionary of `AwsUtils.upload_file_to_s3`. -/
structure S3Result where
  s3_uri : String
  bucket : String
  key : String
deriving Repr, DecidableEq

/-- Result dictionary of `QaChain.get_answer` (keys `answer`, `message`). -/
structure QaResult where
  answer : Option String
  message : Option String
deriving Repr, DecidableEq

/-- An exception travelling inside a handler body: either a raised
`HTTPException(status, detail)` or an exception of an external call. -/
inductive Exc where
  | http (status : Nat) (detail : String)
  | ext (msg : String)
deriving Repr, DecidableEq

/-- Python `str(e)`: Starlette stringifies `HTTPException` as
`"{status_code}: {detail}"`; for other exceptions we take the message. -/
def Exc.toDetail : Exc → String
  | .http s d => toString s ++ ": " ++ d
  | .ext m => m

/-- An `HTTPException` as received by the client. -/
structure HTTPError where
  status : Nat
  detail : String
deriving Repr, DecidableEq

/-- An uploaded file (`fastapi.UploadFile`): its filename and content. -/
structure FileUpload where
  filename : String
  content : String
deriving Repr, DecidableEq

/-- Response model `ChatpdfResponse` of `pdf_chat`. -/
structure ChatpdfResponse where
  session_id : String
  answer : Option String
  message : Option String
  is_new_session : Bool
  table_name : String
deriving Repr, DecidableEq

/-- Directory for temporary file storage (`pdf_chat.py` line 19,
`summary.py` line 24). -/
def UPLOAD_DIR : String := "/tmp/pdf_uploads"

/-- S3 domain name for PDFs (`pdf_chat.py` line 23, `summary.py` line 28). -/
def MEDICAL_PDF_DOMAIN : String := "medical_pdfs"

/-- Environment of external calls reachable from `pdf_chat.py`.  The
results of nondeterministic or external operations (`uuid.uuid4()`,
`datetime.now()`, file IO, S3, the `QaChain` methods) are fixed by the
environment; an `Except.error` models a raised exception. -/
structure PdfEnv where
  transactionId : String
  freshSessionId : String
  now : Nat
  saveUpload : Except String Unit
  s3Upload : String → String → String → Except String S3Result
  createTable : String → Except String String
  cleanupTable : String → Except String Unit
  getAnswer : String → String → String → Except String QaResult

/-- The temporary path used by `_process_file` and the summary
endpoints: `os.path.join(UPLOAD_DIR, f"{transaction_id}_{file.filename}")`. -/
def tempPath (transactionId filename : String) : String :=
  UPLOAD_DIR ++ "/" ++ transactionId ++ "_" ++ filename

/-- `user_id if user_id else "anonymous"` for a required string field
(`_process_file` line 76). -/
def userFolderStr (u : String) : String :=
  if u = "" then "anonymous" else u

/-- `_process_file` (`pdf_chat.py` lines 63-92): save the upload locally,
upload it to S3 under `medical_pdfs/<user folder>`, create the vector
table from the filename; returns the temp path and table name. -/
def process_file (env : PdfEnv) (w : World) (file : FileUpload)
    (user_id : String) : Except String (String × String) × World :=
  let path := tempPath env.transactionId file.filename
  match env.saveUpload with
  | .error m => (.error m, w)
  | .ok _ =>
    let w := { w with files := addName w.files path }
    let domain := MEDICAL_PDF_DOMAIN ++ "/" ++ userFolderStr user_id
    match env.s3Upload domain path file.filename with
    | .error m => (.error m, w)
    | .ok _ =>
      let w := { w with uploads := w.uploads ++ [⟨domain, path, file.filename⟩] }
      match env.createTable file.filename with
      | .error m => (.error m, w)
      | .ok table =>
        (.ok (path, table), { w with tables := addName w.tables table })

/-- Tail of `pdf_chat` (lines 181-202): if the query is falsy return the
session info message, otherwise build `QaChain(temp_file_path, query,
table_name=table_name)` and call `get_answer`. -/
def pdf_chat_answer (env : PdfEnv) (w : World) (sid : String)
    (query : Option String) (path table : String) (isNew : Bool) :
    Except Exc ChatpdfResponse × World :=
  if truthy query then
    match env.getAnswer path (query.getD "") table with
    | .error m => (.error (.ext m), w)
    | .ok qa => (.ok ⟨sid, qa.answer, qa.message, isNew, table⟩, w)
  else
    (.ok ⟨sid, none,
      some "Document processed and indexed. Send a query to get answers.",
      isNew, table⟩, w)

/-- Branch of `pdf_chat` for `session_id and session_id in
active_sessions` (lines 128-154): optional document replacement, then
answering. -/
def pdf_chat_existing (env : PdfEnv) (w : World) (user_id : String)
    (query : Option String) (sid : String) (entry : SessionEntry)
    (file : Option FileUpload) : Except Exc ChatpdfResponse × World :=
  match file with
  | some f =>
    match env.cleanupTable entry.table_name with
    | .error m => (.error (.ext m), w)
    | .ok _ =>
      let w := { w with tables := removeName w.tables entry.table_name }
      match process_file env w f user_id with
      | (.error m, w') => (.error (.ext m), w')
      | (.ok (path, table), w') =>
        let entry' := { entry with temp_file_path := path, table_name := table }
        let w'' := { w' with sessions := setSession w'.sessions sid entry' }
        pdf_chat_answer env w'' sid query path table false
  | none =>
    pdf_chat_answer env w sid query entry.temp_file_path entry.table_name false

/-- Branch of `pdf_chat` for a new session (lines 156-172): a fresh
session id, file processing, and a fresh `active_sessions` entry. -/
def pdf_chat_new (env : PdfEnv) (w : World) (user_id : String)
    (query : Option String) (f : FileUpload) :
    Except Exc ChatpdfResponse × World :=
  let sid := env.freshSessionId
  match process_file env w f user_id with
  | (.error m, w') => (.error (.ext m), w')
  | (.ok (path, table), w') =>
    let entry : SessionEntry := ⟨user_id, path, table, env.now⟩
    let w'' := { w' with sessions := setSession w'.sessions sid entry }
    pdf_chat_answer env w'' sid query path table true

/-- Body of the `try:` of `pdf_chat` (lines 116-202).  The 400 is raised
when neither a file nor a truthy session id is supplied; the 404 when a
truthy session id is supplied without a file but is not a key of
`active_sessions`. -/
def pdf_chat_inner (env : PdfEnv) (w : World) (user_id : String)
    (query session_id : Option String) (file : Option FileUpload) :
    Except Exc ChatpdfResponse × World :=
  if truthy session_id then
    match lookupSession w.sessions (session_id.getD "") with
    | some entry =>
      pdf_chat_existing env w user_id query (session_id.getD "") entry file
    | none =>
      match file with
      | some f => pdf_chat_new env w user_id query f
      | none =>
        (.error (.http 404 ("Session with ID " ++ session_id.getD "" ++
          " not found. It may have expired.")), w)
  else
    match file with
    | some f => pdf_chat_new env w user_id query f
    | none =>
      (.error (.http 400 "Either file or session_id must be provided"), w)

/-- The `/pdf_chat` endpoint (`pdf_chat.py` lines 101-206): the whole
body runs under `try: ... except Exception as e: raise
HTTPException(status_code=500, detail=str(e))`, so every exception —
including the inner 400/404 `HTTPException`s — reaches the client as a
500 whose detail is the stringified original exception. -/
def pdf_chat (env : PdfEnv) (w : World) (user_id : String)
    (query session_id : Option String) (file : Option FileUpload) :
    Except HTTPError ChatpdfResponse × World :=
  match pdf_chat_inner env w user_id query session_id file with
  | (.ok r, w') => (.ok r, w')
  | (.error e, w') => (.error ⟨500, e.toDetail⟩, w')

/-- The `/cleanup` endpoint (`pdf_chat.py` lines 33-61): missing session
returns the not-found message with status 200; otherwise the table is
dropped, the temp file removed if present, and the entry deleted.  An
exception is re-raised as a 500 with `str(e)` as detail. -/
def cleanup_session (env : PdfEnv) (w : World) (session_id : String) :
    Except HTTPError String × World :=
  match lookupSession w.sessions session_id with
  | none => (.ok "Session not found", w)
  | some entry =>
    match env.cleanupTable entry.table_name with
    | .error m => (.error ⟨500, m⟩, w)
    | .ok _ =>
      let w := { w with tables := removeName w.tables entry.table_name }
      let w := { w with files := removeName w.files entry.temp_file_path }
      let w := { w with sessions := eraseSession w.sessions session_id }
      (.ok "Session cleaned up successfully", w)

/-- Environment of external calls of `summary.py`. -/
structure SummaryEnv where
  transactionId : String
  documentId : String
  saveUpload : String → Except String Unit
  s3Upload : String → String → String → Except String S3Result
  getPrompts : String → Except String (String × String × String)
  summarize : String → Except String String
  summarizeMulti : List String → Except String String

/-- `user_id if user_id else "anonymous"` for an optional string field
(`summary.py` lines 73 and 115). -/
def userFolder : Option String → String
  | none => "anonymous"
  | some s => if s = "" then "anonymous" else s

/-- Response dictionary of `single_document_summary` (lines 106-116).
The fields are exactly the keys of the returned dict. -/
structure SummaryResponse where
  document_id : String
  file_name : String
  s3_uri : String
  s3_bucket : String
  s3_key : String
  summary : String
  summary_type : String
  transaction_id : String
  user_id : String
deriving Repr, DecidableEq

/-- The `/single_document_summary` endpoint (`summary.py` lines 38-126):
save upload, upload to S3 under `medical_pdfs/<user folder>`, select
prompts, summarize, return; every exception becomes a 500 with `str(e)`
as detail, and the `finally:` removes the temp file on all paths. -/
def single_document_summary (env : SummaryEnv) (w : World)
    (file : FileUpload) (type_of_summary : String)
    (user_id : Option String) :
    Except HTTPError SummaryResponse × World :=
  let path := tempPath env.transactionId file.filename
  let fin := fun (r : Except HTTPError SummaryResponse) (w : World) =>
    (r, { w with files := removeName w.files path })
  match env.saveUpload path with
  | .error m => fin (.error ⟨500, m⟩) w
  | .ok _ =>
    let w := { w with files := addName w.files path }
    let domain := MEDICAL_PDF_DOMAIN ++ "/" ++ userFolder user_id
    match env.s3Upload domain path file.filename with
    | .error m => fin (.error ⟨500, m⟩) w
    | .ok s3 =>
      let w := { w with uploads := w.uploads ++ [⟨domain, path, file.filename⟩] }
      match env.getPrompts type_of_summary with
      | .error m => fin (.error ⟨500, m⟩) w
      | .ok _ =>
        match env.summarize path with
        | .error m => fin (.error ⟨500, m⟩) w
        | .ok summary =>
          fin (.ok ⟨env.documentId, file.filename, s3.s3_uri, s3.bucket,
            s3.key, summary, type_of_summary, env.transactionId,
            userFolder user_id⟩) w

/-- Entry of the `files_info` list of `multi_document_summary`
(lines 185-190). -/
structure FileInfo where
  file_name : String
  s3_uri : String
  s3_bucket : String
  s3_key : String
deriving Repr, DecidableEq

/-- Response dictionary of `multi_document_summary` (lines 209-216). -/
structure MultiSummaryResponse where
  files_info : List FileInfo
  summary : String
  summary_type : String
  transaction_id : String
  user_id : String
  total_files_processed : Nat
deriving Repr, DecidableEq

/-- The save loop of `multi_document_summary` (lines 163-168): each
file is written to its temp path and the path appended to
`temp_file_paths`; a raised exception stops the loop, keeping the paths
accumulated so far. -/
def multi_save (env : SummaryEnv) :
    World → List FileUpload → Except String Unit × List String × World
  | w, [] => (.ok (), [], w)
  | w, f :: fs =>
    let path := tempPath env.transactionId f.filename
    match env.saveUpload path with
    | .error m => (.error m, [], w)
    | .ok _ =>
      match multi_save env { w with files := addName w.files path } fs with
      | (res, paths, w') => (res, path :: paths, w')

/-- The S3 upload loop of `multi_document_summary` (lines 176-190). -/
def multi_s3 (env : SummaryEnv) (domain : String) :
    World → List (FileUpload × String) →
    Except String (List FileInfo) × World
  | w, [] => (.ok [], w)
  | w, (f, path) :: rest =>
    match env.s3Upload domain path f.filename with
    | .error m => (.error m, w)
    | .ok s3 =>
      let w := { w with uploads := w.uploads ++ [⟨domain, path, f.filename⟩] }
      match multi_s3 env domain w rest with
      | (.error m, w') => (.error m, w')
      | (.ok infos, w') =>
        (.ok ((⟨f.filename, s3.s3_uri, s3.bucket, s3.key⟩ : FileInfo) :: infos), w')

/-- The `finally:` cleanup loop of `multi_document_summary`
(lines 222-227): every accumulated temp path is removed. -/
def removeAllNames (files : List String) (paths : List String) : List String :=
  paths.foldl removeName files

/-- The `/multi_document_summary` endpoint (`summary.py` lines 137-227). -/
def multi_document_summary (env : SummaryEnv) (w : World)
    (files : List FileUpload) (type_of_summary : String)
    (user_id : Option String) :
    Except HTTPError MultiSummaryResponse × World :=
  match multi_save env w files with
  | (.error m, paths, w1) =>
    (.error ⟨500, m⟩, { w1 with files := removeAllNames w1.files paths })
  | (.ok _, paths, w1) =>
    let domain := MEDICAL_PDF_DOMAIN ++ "/" ++ userFolder user_id
    let fin := fun (r : Except HTTPError MultiSummaryResponse) (w : World) =>
      (r, { w with files := removeAllNames w.files paths })
    match multi_s3 env domain w1 (files.zip paths) with
    | (.error m, w2) => fin (.error ⟨500, m⟩) w2
    | (.ok infos, w2) =>
      match env.getPrompts type_of_summary with
      | .error m => fin (.error ⟨500, m⟩) w2
      | .ok _ =>
        match env.summarizeMulti paths with
        | .error m => fin (.error ⟨500, m⟩) w2
        | .ok summary =>
          fin (.ok ⟨infos, summary, type_of_summary, env.transactionId,
            userFolder user_id, files.length⟩) w2

/-- Result dictionary of `SarvamTranscribeChain.get_answer`
(`audio.py` lines 286-307).  The probability and segments values are
copied verbatim into the response, so they are modelled as opaque
tokens. -/
structure TranscribeResult where
  text : String
  language : String
  language_probability : String
  segments : String
  clinical_note : Option String
  prescription : Option String
deriving Repr, DecidableEq

/-- Schema `RawTranscription`. -/
structure RawTranscription where
  text : String
  language : String
  language_probability : String
  segments : String
deriving Repr, DecidableEq

/-- Schema `EnhancedTranscriptionResponse`. -/
structure EnhancedTranscriptionResponse where
  raw_transcription : RawTranscription
  clinical_note : String
deriving Repr, DecidableEq

/-- Environment of external calls of `deep_audio_notes`
(`audio.py` lines 240-332): reading the upload, the
`tempfile.NamedTemporaryFile` name, and the transcription chain. -/
structure AudioEnv where
  readAudio : Except String String
  tempName : String
  transcribe : String → String → Except String TranscribeResult

/-- The `/deep_audio_notes` endpoint (`audio.py` lines 240-332): the
audio is saved to a named temporary file, transcribed, and the temp
file removed in a `finally:`; every exception — including the inner 400
for an empty upload — is re-raised as a 500 with detail
`"Failed to process audio: " ++ str(e)`. -/
def deep_audio_notes (env : AudioEnv) (w : World)
    (recording_type : Option String) :
    Except HTTPError EnhancedTranscriptionResponse × World :=
  match env.readAudio with
  | .error m => (.error ⟨500, "Failed to process audio: " ++ m⟩, w)
  | .ok contents =>
    if contents = "" then
      (.error ⟨500, "Failed to process audio: " ++
        Exc.toDetail (.http 400 "Empty audio file")⟩, w)
    else
      let path := env.tempName
      let w := { w with files := addName w.files path }
      let rt := if truthy recording_type then recording_type.getD "" else "clinical"
      match env.transcribe path rt with
      | .error m =>
        (.error ⟨500, "Failed to process audio: " ++ m⟩,
          { w with files := removeName w.files path })
      | .ok r =>
        let formatted :=
          match r.clinical_note with
          | some s => if s = "" then r.prescription.getD "" else s
          | none => r.prescription.getD ""
        (.ok ⟨⟨r.text, r.language, r.language_probability, r.segments⟩, formatted⟩,
          { w with files := removeName w.files path })

/-- The `patient_context` dictionary of `create_soap_notes_from_audio`
(`audio.py` lines 90-96). -/
structure PatientContext where
  patient_name : Option String
  visit_type : String
  pronouns : String
  note_length : String
  past_context : Option String
deriving Repr, DecidableEq

/-- Result dictionary of `SOAP_Chain.get_answer`. -/
structure SoapResult where
  raw_transcription : String
  clinical_note : String
  timestamp : String
deriving Repr, DecidableEq

/-- Schema `AISOAPTranscriptionResponse` (the float `processing_time`
timing field is out of the embedding). -/
structure AISOAPTranscriptionResponse where
  session_id : String
  note_id : String
  template_type : String
  patient_name : Option String
  raw_transcription : String
  clinical_note : String
  patient_context : PatientContext
  timestamp : String
deriving Repr, DecidableEq

/-- Environment of external calls of `create_soap_notes_from_audio`
(`audio.py` lines 48-178).  `dbCreateSession` models the database block
of lines 127-149: on success it yields `session.session_id`, an
`error` models any exception raised by the `AISOAPService` calls. -/
structure SoapEnv where
  readAudio : Except String String
  tempName : String
  freshSessionId : String
  freshNoteId : String
  soapAnswer : String → String → PatientContext → Except String SoapResult
  dbCreateSession : Except String String

/-- The `/soap_notes` endpoint (`audio.py` lines 48-178).  Unlike the
other handlers it re-raises inner `HTTPException`s unchanged
(`except HTTPException: raise`, lines 174-175), and the database block
of lines 127-149 catches its own exceptions and only logs them: a
database failure leaves the request successful. -/
def create_soap_notes_from_audio (env : SoapEnv) (w : World)
    (audio_filename template_type : String) (patient_name : Option String)
    (visit_type pronouns note_length : String)
    (past_context session_id : Option String) :
    Except HTTPError AISOAPTranscriptionResponse × World :=
  if audio_filename = "" then
    (.error ⟨400, "No audio file provided"⟩, w)
  else if template_type ∉ ["general", "lite", "combined_ap", "detailed"] then
    (.error ⟨400,
      "Invalid template type. Choose from: general, lite, combined_ap, detailed"⟩, w)
  else
    match env.readAudio with
    | .error m => (.error ⟨500, "Failed to generate SOAP notes: " ++ m⟩, w)
    | .ok contents =>
      if contents = "" then
        (.error ⟨400, "Empty audio file"⟩, w)
      else
        let path := env.tempName
        let w := { w with files := addName w.files path }
        let ctx : PatientContext :=
          ⟨patient_name, visit_type, pronouns, note_length, past_context⟩
        match env.soapAnswer path template_type ctx with
        | .error m =>
          (.error ⟨500, "Failed to generate SOAP notes: " ++ m⟩,
            { w with files := removeName w.files path })
        | .ok r =>
          let wf := { w with files := removeName w.files path }
          if r.raw_transcription = "" then
            (.ok ⟨env.freshSessionId, env.freshNoteId, template_type,
              patient_name, "",
              "No audio content detected. Please check audio quality or try recording again.",
              ctx, r.timestamp⟩, wf)
          else
            let sid :=
              match env.dbCreateSession with
              | .ok s => s
              | .error _ =>
                if truthy session_id then session_id.getD ""
                else env.freshSessionId
            (.ok ⟨sid, env.freshNoteId, template_type, patient_name,
              r.raw_transcription, r.clinical_note, ctx, r.timestamp⟩, wf)

/-- Schema `ChatbotInput`. -/
structure ChatbotInput where
  query : String
  conversation_id : Option String
deriving Repr, DecidableEq

/-- Schema `ChatbotOutput` (timestamp as an abstract clock value). -/
structure ChatbotOutput where
  answer : String
  answer_found : Bool
  related_articles : List String
  llm_error_occurred : Bool
  conversation_id : Option String
  timestamp : Nat
deriving Repr, DecidableEq

/-- Environment of `healthcare_chat` (`chatbot.py`): the
`MedChatbotAgent.process_query` call and the clock. -/
structure ChatEnv where
  processQuery : String → Except String (Option String)
  now : Nat

/-- The `/healthcare_chat` endpoint (`chatbot.py` lines 12-40): the
agent result (possibly `None` or empty) is shaped into `ChatbotOutput`;
any exception becomes a 500 whose detail prefixes the message with
`"An error occurred while processing your request: "`. -/
def healthcare_chat (env : ChatEnv) (input_data : ChatbotInput) :
    Except HTTPError ChatbotOutput :=
  match env.processQuery input_data.query with
  | .error m =>
    .error ⟨500, "An error occurred while processing your request: " ++ m⟩
  | .ok r =>
    .ok ⟨(if truthy r then r.getD "" else ""), truthy r, [], false,
      input_data.conversation_id, env.now⟩

/-- Environment of `gateway.py`: the `APIGateway` route methods, which
live outside this repository (`services/api_gateway.py`).  Payload
types of routes whose schemas the gateway never inspects are opaque
strings. -/
structure GatewayEnv where
  routeMedicalChat : ChatbotInput → Except String ChatbotOutput
  routePdfChat : String → Option String → Option String → Option FileUpload →
    Except String ChatpdfResponse
  routeLabExtract : FileUpload → Except String String
  routeAudioTranscription : FileUpload → Option String →
    Except String EnhancedTranscriptionResponse
  routeDeepAudioNotes : FileUpload → Option String →
    Except String EnhancedTranscriptionResponse
  routeSoapNotes : FileUpload → String → Option String → String → String →
    String → Option String → Option String →
    Except String AISOAPTranscriptionResponse
  routeProcessText : String → Except String String
  routeDocumentSummary : FileUpload → String → Option String →
    Except String String
  routeMultiDocumentSummary : List FileUpload → String → Option String →
    Except String String

/-- The `/medical-chat` gateway endpoint (`gateway.py` lines 30-54). -/
def medical_chat_gateway (env : GatewayEnv) (input_data : ChatbotInput) :
    Except HTTPError ChatbotOutput :=
  match env.routeMedicalChat input_data with
  | .ok out => .ok out
  | .error m => .error ⟨500, "Gateway error: " ++ m⟩

/-- The `/pdf-chat` gateway endpoint (`gateway.py` lines 62-101). -/
def pdf_chat_gateway (env : GatewayEnv) (user_id : String)
    (query session_id : Option String) (file : Option FileUpload) :
    Except HTTPError ChatpdfResponse :=
  match env.routePdfChat user_id query session_id file with
  | .ok out => .ok out
  | .error m => .error ⟨500, "Gateway error: " ++ m⟩

/-- The `/lab-extract` gateway endpoint (`gateway.py` lines 108-132). -/
def lab_extract_gateway (env : GatewayEnv) (file : FileUpload) :
    Except HTTPError String :=
  match env.routeLabExtract file with
  | .ok out => .ok out
  | .error m => .error ⟨500, "Gateway error: " ++ m⟩

/-- The `/audio-transcription` gateway endpoint (lines 140-166). -/
def audio_transcription_gateway (env : GatewayEnv) (audio : FileUpload)
    (recording_type : Option String) :
    Except HTTPError EnhancedTranscriptionResponse :=
  match env.routeAudioTranscription audio recording_type with
  | .ok out => .ok out
  | .error m => .error ⟨500, "Gateway error: " ++ m⟩

/-- The `/deep-audio-notes` gateway endpoint (lines 174-200). -/
def deep_audio_notes_gateway (env : GatewayEnv) (audio : FileUpload)
    (recording_type : Option String) :
    Except HTTPError EnhancedTranscriptionResponse :=
  match env.routeDeepAudioNotes audio recording_type with
  | .ok out => .ok out
  | .error m => .error ⟨500, "Gateway error: " ++ m⟩

/-- The `/soap-notes` gateway endpoint (lines 208-255). -/
def soap_notes_gateway (env : GatewayEnv) (audio : FileUpload)
    (template_type : String) (patient_name : Option String)
    (visit_type pronouns note_length : String)
    (past_context session_id : Option String) :
    Except HTTPError AISOAPTranscriptionResponse :=
  match env.routeSoapNotes audio template_type patient_name visit_type
      pronouns note_length past_context session_id with
  | .ok out => .ok out
  | .error m => .error ⟨500, "Gateway error: " ++ m⟩

/-- The `/process-text` gateway endpoint (lines 263-287). -/
def process_text_gateway (env : GatewayEnv) (request : String) :
    Except HTTPError String :=
  match env.routeProcessText request with
  | .ok out => .ok out
  | .error m => .error ⟨500, "Gateway error: " ++ m⟩

/-- The `/document-summary` gateway endpoint (lines 294-326). -/
def document_summary_gateway (env : GatewayEnv) (file : FileUpload)
    (type_of_summary : String) (user_id : Option String) :
    Except HTTPError String :=
  match env.routeDocumentSummary file type_of_summary user_id with
  | .ok out => .ok out
  | .error m => .error ⟨500, "Gateway error: " ++ m⟩

/-- The `/multiple-document-summary` gateway endpoint (lines 333-365). -/
def multi_document_summary_gateway (env : GatewayEnv)
    (files : List FileUpload) (type_of_summary : String)
    (user_id : Option String) : Except HTTPError String :=
  match env.routeMultiDocumentSummary files type_of_summary user_id with
  | .ok out => .ok out
  | .error m => .error ⟨500, "Gateway error: " ++ m⟩

/-- Modelled from the spec: the coordinator/gateway "is a dispatch table
over already-existing chain objects with no scheduling, retry, or
backpressure logic of its own" — a single dispatch of the request
arguments to the route, the result passed through unmodified, any
exception mapped to a 500 whose detail is `"Gateway error: "` followed
by the message.  Reference definition for the refinement claim about
`gateway.py`. -/
def gateway_dispatch_spec {α β : Type} (route : α → Except String β)
    (a : α) : Except HTTPError β :=
  match route a with
  | .ok b => .ok b
  | .error m => .error ⟨500, "Gateway error: " ++ m⟩

/-- Looking up after a dictionary write finds the written value at its
key and leaves every other key unchanged. -/
theorem lookupSession_setSession (m : SessionMap) (k k' : String)
    (v : SessionEntry) :
    lookupSession (setSession m k v) k' =
      if k = k' then some v else lookupSession m k' := by
  induction m with
  | nil => simp [setSession, lookupSession]
  | cons kv rest ih =>
    obtain ⟨a, b⟩ := kv
    simp only [setSession]
    by_cases hak : a = k
    · subst hak
      by_cases hkk : a = k' <;> simp [lookupSession, hkk]
    · simp only [if_neg hak, lookupSession, ih]
      by_cases hak' : a = k'
      · subst hak'
        simp [lookupSession, if_neg (Ne.symm hak)]
      · simp [lookupSession, hak']

/-- Looking up after a dictionary deletion. -/
theorem lookupSession_eraseSession (m : SessionMap) (k k' : String) :
    lookupSession (eraseSession m k) k' =
      if k = k' then none else lookupSession m k' := by
  induction m with
  | nil => simp [eraseSession, lookupSession]
  | cons kv rest ih =>
    obtain ⟨a, b⟩ := kv
    simp only [eraseSession, List.filter]
    by_cases hak : a = k
    · subst hak
      by_cases hkk : a = k' <;>
        simp_all [eraseSession, lookupSession]
    · by_cases hak' : a = k'
      · subst hak'
        simp_all [eraseSession, lookupSession, if_neg (Ne.symm hak)]
      · simp_all [eraseSession, lookupSession, hak, hak']

/-- `pdf_chat_answer` never changes the world. -/
theorem pdf_chat_answer_world (env : PdfEnv) (w : World) (sid : String)
    (query : Option String) (path table : String) (b : Bool) :
    (pdf_chat_answer env w sid query path table b).2 = w := by
  unfold pdf_chat_answer
  by_cases h : truthy query
  · simp only [h, if_pos]
    cases env.getAnswer path (query.getD "") table <;> rfl
  · simp [h]

/-- `process_file` never changes the session map. -/
theorem process_file_sessions (env : PdfEnv) (w : World) (f : FileUpload)
    (u : String) : (process_file env w f u).2.sessions = w.sessions := by
  simp only [process_file]
  repeat' split
  all_goals rfl

/-- On the success path `_process_file` returns the temp path and the
created table, having written the local file, recorded the S3 upload,
and created the table. -/
theorem process_file_ok (env : PdfEnv) (w : World) (f : FileUpload)
    (u : String) (s3 : S3Result) (tbl : String)
    (hsv : env.saveUpload = .ok ())
    (hup : env.s3Upload (MEDICAL_PDF_DOMAIN ++ "/" ++ userFolderStr u)
      (tempPath env.transactionId f.filename) f.filename = .ok s3)
    (hct : env.createTable f.filename = .ok tbl) :
    process_file env w f u =
      (.ok (tempPath env.transactionId f.filename, tbl),
        { w with
          files := addName w.files (tempPath env.transactionId f.filename),
          tables := addName w.tables tbl,
          uploads := w.uploads ++ [⟨MEDICAL_PDF_DOMAIN ++ "/" ++ userFolderStr u,
            tempPath env.transactionId f.filename, f.filename⟩] }) := by
  simp only [process_file, hsv, hup, hct]

/-- With no (truthy) query, the response is the session-info message. -/
theorem pdf_chat_answer_none (env : PdfEnv) (w : World) (sid : String)
    (path table : String) (b : Bool) :
    pdf_chat_answer env w sid none path table b =
      (.ok ⟨sid, none,
        some "Document processed and indexed. Send a query to get answers.",
        b, table⟩, w) := rfl

/-- With a truthy query and a successful chain call, the response is
shaped from the `get_answer` dictionary. -/
theorem pdf_chat_answer_ok (env : PdfEnv) (w : World) (sid : String)
    (q path table : String) (b : Bool) (qa : QaResult)
    (hq : q ≠ "") (ha : env.getAnswer path q table = .ok qa) :
    pdf_chat_answer env w sid (some q) path table b =
      (.ok ⟨sid, qa.answer, qa.message, b, table⟩, w) := by
  simp [pdf_chat_answer, truthy, hq, ha]

/-- The outer `except Exception` wrapper does not touch the world. -/
theorem pdf_chat_world (env : PdfEnv) (w : World) (uid : String)
    (q sid : Option String) (file : Option FileUpload) :
    (pdf_chat env w uid q sid file).2 =
      (pdf_chat_inner env w uid q sid file).2 := by
  unfold pdf_chat
  rcases pdf_chat_inner env w uid q sid file with ⟨res, w'⟩
  cases res <;> rfl

/-- A truthy session id that is a key of `active_sessions` selects the
existing-session branch. -/
theorem pdf_chat_inner_existing (env : PdfEnv) (w : World) (uid : String)
    (query : Option String) (sid : String) (entry : SessionEntry)
    (file : Option FileUpload)
    (hsid : sid ≠ "") (hlk : lookupSession w.sessions sid = some entry) :
    pdf_chat_inner env w uid query (some sid) file =
      pdf_chat_existing env w uid query sid entry file := by
  simp [pdf_chat_inner, truthy, hsid, hlk]

/-- Claim C1: every `active_sessions` entry stores a `table_name`
together with a `temp_file_path` (the fields of `SessionEntry`), and a
`pdf_chat` call whose session id is a key of the map and that supplies
no file leaves the world — in particular that entry — unchanged, and
produces its answer by a `QaChain` built with exactly the
`temp_file_path` and `table_name` stored under that session id. -/
theorem pdf_chat_existing_session_uses_stored_entry (env : PdfEnv)
    (w : World) (user_id : String) (query : Option String) (sid : String)
    (entry : SessionEntry)
    (hsid : sid ≠ "")
    (hlk : lookupSession w.sessions sid = some entry) :
    (pdf_chat env w user_id query (some sid) none).2 = w ∧
    (∀ q qa, query = some q → q ≠ "" →
      env.getAnswer entry.temp_file_path q entry.table_name = .ok qa →
      pdf_chat env w user_id query (some sid) none =
        (.ok ⟨sid, qa.answer, qa.message, false, entry.table_name⟩, w)) := by
  have hb := pdf_chat_inner_existing env w user_id query sid entry none hsid hlk
  constructor
  · rw [pdf_chat_world, hb]
    exact pdf_chat_answer_world env w sid query entry.temp_file_path
      entry.table_name false
  · intro q qa hq hq' ha
    subst hq
    unfold pdf_chat
    rw [hb]
    unfold pdf_chat_existing
    rw [pdf_chat_answer_ok env w sid q entry.temp_file_path entry.table_name
      false qa hq' ha]

/-- Concrete world for the C1 witness. -/
def c1World : World :=
  ⟨[("s", ⟨"u", "/tmp/p", "tbl", 0⟩)], ["/tmp/p"], ["tbl"], []⟩

/-- Concrete environment for the C1 witness. -/
def c1Env : PdfEnv :=
  ⟨"tid", "fresh", 1, .ok (), fun _ _ _ => .ok ⟨"uri", "b", "k"⟩,
   fun _ => .ok "tbl2", fun _ => .ok (),
   fun _ _ _ => .ok ⟨some "ans", none⟩⟩

/-- Witness for C1 at a concrete session store. -/
theorem pdf_chat_existing_session_uses_stored_entry_witness :
    (pdf_chat c1Env c1World "u" (some "q") (some "s") none).2 = c1World ∧
    pdf_chat c1Env c1World "u" (some "q") (some "s") none =
      (.ok ⟨"s", some "ans", none, false, "tbl"⟩, c1World) :=
  ⟨(pdf_chat_existing_session_uses_stored_entry c1Env c1World "u"
      (some "q") "s" ⟨"u", "/tmp/p", "tbl", 0⟩ (by decide) rfl).1,
   (pdf_chat_existing_session_uses_stored_entry c1Env c1World "u"
      (some "q") "s" ⟨"u", "/tmp/p", "tbl", 0⟩ (by decide) rfl).2
     "q" ⟨some "ans", none⟩ rfl (by decide) rfl⟩

/-- Claim C3: a `pdf_chat` call with neither file nor session id, and a
call with an unknown truthy session id and no file, both reach the
client as status 500 — never 400 or 404 — because the inner
`HTTPException`s are caught by the surrounding `except Exception`
handler; the 500 detail is the stringified original exception
(`"400: ..."` / `"404: ..."`). -/
theorem pdf_chat_inner_http_becomes_500 (env : PdfEnv) (w : World)
    (user_id : String) (query : Option String) :
    pdf_chat env w user_id query none none =
      (.error ⟨500, "400: Either file or session_id must be provided"⟩, w) ∧
    (∀ sid, sid ≠ "" → lookupSession w.sessions sid = none →
      pdf_chat env w user_id query (some sid) none =
        (.error ⟨500, "404: Session with ID " ++ sid ++
          " not found. It may have expired."⟩, w)) := by
  constructor
  · rfl
  · intro sid hs hlk
    have ht : truthy (some sid) = true := by simp [truthy, hs]
    simp only [pdf_chat, pdf_chat_inner, ht, if_true, Option.getD_some, hlk,
      Exc.toDetail]
    rw [← String.append_assoc, ← String.append_assoc]
    rfl

/-- Concrete world for the C3 witness. -/
def c3World : World := ⟨[], [], [], []⟩

/-- Concrete environment for the C3 witness. -/
def c3Env : PdfEnv :=
  ⟨"tid", "fresh", 1, .ok (), fun _ _ _ => .ok ⟨"uri", "b", "k"⟩,
   fun _ => .ok "tbl2", fun _ => .ok (),
   fun _ _ _ => .ok ⟨some "ans", none⟩⟩

/-- Witness for C3 at an empty session store. -/
theorem pdf_chat_inner_http_becomes_500_witness :
    pdf_chat c3Env c3World "u" none none none =
      (.error ⟨500, "400: Either file or session_id must be provided"⟩,
        c3World) ∧
    pdf_chat c3Env c3World "u" none (some "ghost") none =
      (.error ⟨500, "404: Session with ID ghost not found. It may have expired."⟩,
        c3World) :=
  ⟨(pdf_chat_inner_http_becomes_500 c3Env c3World "u" none).1,
   by
    have h := (pdf_chat_inner_http_becomes_500 c3Env c3World "u" none).2
      "ghost" (by decide) rfl
    rw [h]
    rfl⟩

/-- Claim C10: `cleanup_session` on an unknown session id returns the
not-found message (status 200, the route's default) and leaves the
world untouched; on a known id with a successful table drop it removes
exactly that entry and preserves every other key. -/
theorem cleanup_session_removes_exactly_one (env : PdfEnv) (w : World)
    (sid : String) :
    (lookupSession w.sessions sid = none →
      cleanup_session env w sid = (.ok "Session not found", w)) ∧
    (∀ entry, lookupSession w.sessions sid = some entry →
      env.cleanupTable entry.table_name = .ok () →
      (cleanup_session env w sid).1 = .ok "Session cleaned up successfully" ∧
      lookupSession (cleanup_session env w sid).2.sessions sid = none ∧
      ∀ k, k ≠ sid →
        lookupSession (cleanup_session env w sid).2.sessions k =
          lookupSession w.sessions k) := by
  constructor
  · intro h
    simp [cleanup_session, h]
  · intro entry hlk hct
    have hc : cleanup_session env w sid =
        (.ok "Session cleaned up successfully",
          { w with tables := removeName w.tables entry.table_name,
                   files := removeName w.files entry.temp_file_path,
                   sessions := eraseSession w.sessions sid }) := by
      simp [cleanup_session, hlk, hct]
    rw [hc]
    refine ⟨rfl, ?_, ?_⟩
    · simp [lookupSession_eraseSession]
    · intro k hk
      simp [lookupSession_eraseSession, Ne.symm hk]

/-- Concrete world for the C10 witness: two live sessions. -/
def c10World : World :=
  ⟨[("s", ⟨"u", "/tmp/p", "tbl", 0⟩), ("s2", ⟨"v", "/tmp/q", "tbl2", 1⟩)],
   ["/tmp/p"], ["tbl"], []⟩

/-- Concrete environment for the C10 witness. -/
def c10Env : PdfEnv :=
  ⟨"tid", "fresh", 1, .ok (), fun _ _ _ => .ok ⟨"uri", "b", "k"⟩,
   fun _ => .ok "tbl2", fun _ => .ok (),
   fun _ _ _ => .ok ⟨some "ans", none⟩⟩

/-- Witness for C10: an unknown id is a no-op, a known id removes only
its own entry. -/
theorem cleanup_session_removes_exactly_one_witness :
    cleanup_session c10Env c10World "zzz" = (.ok "Session not found", c10World) ∧
    (cleanup_session c10Env c10World "s").1 =
      .ok "Session cleaned up successfully" ∧
    lookupSession (cleanup_session c10Env c10World "s").2.sessions "s" = none ∧
    lookupSession (cleanup_session c10Env c10World "s").2.sessions "s2" =
      lookupSession c10World.sessions "s2" :=
  ⟨(cleanup_session_removes_exactly_one c10Env c10World "zzz").1 rfl,
   ((cleanup_session_removes_exactly_one c10Env c10World "s").2
     ⟨"u", "/tmp/p", "tbl", 0⟩ rfl rfl).1,
   ((cleanup_session_removes_exactly_one c10Env c10World "s").2
     ⟨"u", "/tmp/p", "tbl", 0⟩ rfl rfl).2.1,
   ((cleanup_session_removes_exactly_one c10Env c10World "s").2
     ⟨"u", "/tmp/p", "tbl", 0⟩ rfl rfl).2.2 "s2" (by decide)⟩

/-- A dictionary write can only preserve or add keys. -/
theorem isSome_lookup_setSession (m : SessionMap) (k k' : String)
    (v : SessionEntry) (h : (lookupSession m k').isSome = true) :
    (lookupSession (setSession m k v) k').isSome = true := by
  rw [lookupSession_setSession]
  split
  · rfl
  · exact h

/-- The new-session branch of `pdf_chat` never drops a session key. -/
theorem pdf_chat_new_mono (env : PdfEnv) (w : World) (uid : String)
    (q : Option String) (f : FileUpload) (k : String)
    (h : (lookupSession w.sessions k).isSome = true) :
    (lookupSession (pdf_chat_new env w uid q f).2.sessions k).isSome = true := by
  simp only [pdf_chat_new]
  rcases hp : process_file env w f uid with ⟨res, w'⟩
  have hws : w'.sessions = w.sessions := by
    have h2 := process_file_sessions env w f uid
    rw [hp] at h2
    exact h2
  cases res with
  | error m =>
    show (lookupSession w'.sessions k).isSome = true
    rw [hws]
    exact h
  | ok pt =>
    obtain ⟨path, table⟩ := pt
    rw [pdf_chat_answer_world]
    show (lookupSession (setSession w'.sessions env.freshSessionId
      ⟨uid, path, table, env.now⟩) k).isSome = true
    rw [hws]
    exact isSome_lookup_setSession _ _ _ _ h

/-- The existing-session branch of `pdf_chat` never drops a session key. -/
theorem pdf_chat_existing_mono (env : PdfEnv) (w : World) (uid : String)
    (q : Option String) (sid : String) (entry : SessionEntry)
    (file : Option FileUpload) (k : String)
    (h : (lookupSession w.sessions k).isSome = true) :
    (lookupSession (pdf_chat_existing env w uid q sid entry file).2.sessions
      k).isSome = true := by
  simp only [pdf_chat_existing]
  cases file with
  | none =>
    rw [pdf_chat_answer_world]
    exact h
  | some f =>
    dsimp only
    cases hct : env.cleanupTable entry.table_name with
    | error m => exact h
    | ok u =>
      dsimp only
      rcases hp : process_file env
          { w with tables := removeName w.tables entry.table_name } f uid
        with ⟨res, w'⟩
      have hws : w'.sessions = w.sessions := by
        have h2 := process_file_sessions env
          { w with tables := removeName w.tables entry.table_name } f uid
        rw [hp] at h2
        exact h2
      cases res with
      | error m =>
        show (lookupSession w'.sessions k).isSome = true
        rw [hws]
        exact h
      | ok pt =>
        obtain ⟨path, table⟩ := pt
        rw [pdf_chat_answer_world]
        show (lookupSession (setSession w'.sessions sid
          { entry with temp_file_path := path, table_name := table })
            k).isSome = true
        rw [hws]
        exact isSome_lookup_setSession _ _ _ _ h

/-- `pdf_chat` never drops a session key. -/
theorem pdf_chat_sessions_mono (env : PdfEnv) (w : World) (uid : String)
    (q sid : Option String) (file : Option FileUpload) (k : String)
    (h : (lookupSession w.sessions k).isSome = true) :
    (lookupSession (pdf_chat env w uid q sid file).2.sessions k).isSome
      = true := by
  rw [pdf_chat_world]
  simp only [pdf_chat_inner]
  split
  · cases hlk : lookupSession w.sessions (sid.getD "") with
    | some entry =>
      exact pdf_chat_existing_mono env w uid q _ entry file k h
    | none =>
      cases file with
      | some f => exact pdf_chat_new_mono env w uid q f k h
      | none => exact h
  · cases file with
    | some f => exact pdf_chat_new_mono env w uid q f k h
    | none => exact h

/-- One recorded `pdf_chat` request: its environment and arguments. -/
structure PdfCall where
  env : PdfEnv
  user_id : String
  query : Option String
  session_id : Option String
  file : Option FileUpload

/-- Run a sequence of `pdf_chat` requests, threading the world. -/
def run_pdf_chats : World → List PdfCall → World
  | w, [] => w
  | w, c :: cs =>
    run_pdf_chats (pdf_chat c.env w c.user_id c.query c.session_id c.file).2 cs

/-- Claim C6: under any sequence of `pdf_chat` calls the key set of
`active_sessions` is non-decreasing (entries are only added or
updated); the only operation removing an entry is the `/cleanup`
endpoint, and `cleanup_session` touches no key other than the one it is
given — there is no eviction by age or bound. -/
theorem active_sessions_monotone_under_pdf_chat :
    (∀ (env : PdfEnv) (w : World) (uid : String) (q sid : Option String)
      (file : Option FileUpload) (k : String),
      (lookupSession w.sessions k).isSome = true →
      (lookupSession (pdf_chat env w uid q sid file).2.sessions k).isSome
        = true) ∧
    (∀ (calls : List PdfCall) (w : World) (k : String),
      (lookupSession w.sessions k).isSome = true →
      (lookupSession (run_pdf_chats w calls).sessions k).isSome = true) ∧
    (∀ (env : PdfEnv) (w : World) (sid k : String), k ≠ sid →
      lookupSession (cleanup_session env w sid).2.sessions k =
        lookupSession w.sessions k) := by
  refine ⟨pdf_chat_sessions_mono, ?_, ?_⟩
  · intro calls
    induction calls with
    | nil => intro w k h; exact h
    | cons c cs ih =>
      intro w k h
      exact ih _ k (pdf_chat_sessions_mono c.env w c.user_id c.query
        c.session_id c.file k h)
  · intro env w sid k hk
    simp only [cleanup_session]
    cases hlk : lookupSession w.sessions sid with
    | none => rfl
    | some entry =>
      dsimp only
      cases hct : env.cleanupTable entry.table_name with
      | error m => rfl
      | ok u =>
        show lookupSession (eraseSession w.sessions sid) k =
          lookupSession w.sessions k
        rw [lookupSession_eraseSession]
        simp [Ne.symm hk]

/-- Concrete world for the C6 witness. -/
def c6World : World := ⟨[("keep", ⟨"u", "/tmp/p", "tbl", 0⟩)], [], ["tbl"], []⟩

/-- Concrete environment for the C6 witness. -/
def c6Env : PdfEnv :=
  ⟨"tid", "fresh", 1, .ok (), fun _ _ _ => .ok ⟨"uri", "b", "k"⟩,
   fun _ => .ok "tbl2", fun _ => .ok (),
   fun _ _ _ => .ok ⟨some "ans", none⟩⟩

/-- Witness for C6: the pre-existing key survives a new-session call, a
two-call sequence, and a cleanup of a different id. -/
theorem active_sessions_monotone_under_pdf_chat_witness :
    (lookupSession (pdf_chat c6Env c6World "u" none none
      (some ⟨"f.pdf", "x"⟩)).2.sessions "keep").isSome = true ∧
    (lookupSession (run_pdf_chats c6World
      [⟨c6Env, "u", none, none, some ⟨"f.pdf", "x"⟩⟩,
       ⟨c6Env, "u", none, some "fresh", none⟩]).sessions "keep").isSome
      = true ∧
    lookupSession (cleanup_session c6Env c6World "other").2.sessions "keep" =
      lookupSession c6World.sessions "keep" :=
  ⟨active_sessions_monotone_under_pdf_chat.1 c6Env c6World "u" none none
    (some ⟨"f.pdf", "x"⟩) "keep" rfl,
   active_sessions_monotone_under_pdf_chat.2.1
    [⟨c6Env, "u", none, none, some ⟨"f.pdf", "x"⟩⟩,
     ⟨c6Env, "u", none, some "fresh", none⟩] c6World "keep" rfl,
   active_sessions_monotone_under_pdf_chat.2.2 c6Env c6World "other" "keep"
    (by decide)⟩

/-- Any successful `pdf_chat` response inherits session id, newness flag
and table name from the `pdf_chat_answer` arguments. -/
theorem pdf_chat_answer_ok_shape (env : PdfEnv) (W : World) (sid : String)
    (query : Option String) (path table : String) (b : Bool)
    (resp : ChatpdfResponse)
    (h : (pdf_chat_answer env W sid query path table b).1 = .ok resp) :
    resp.session_id = sid ∧ resp.is_new_session = b ∧
      resp.table_name = table := by
  unfold pdf_chat_answer at h
  split at h
  · cases hga : env.getAnswer path (query.getD "") table with
    | error m => rw [hga] at h; simp at h
    | ok qa =>
      rw [hga] at h
      injection h with h2
      subst h2
      exact ⟨rfl, rfl, rfl⟩
  · injection h with h2
    subst h2
    exact ⟨rfl, rfl, rfl⟩

/-- `pdf_chat` succeeds exactly when its body does. -/
theorem pdf_chat_fst_ok (env : PdfEnv) (w : World) (uid : String)
    (q sid : Option String) (file : Option FileUpload) (r : ChatpdfResponse) :
    (pdf_chat env w uid q sid file).1 = .ok r ↔
      (pdf_chat_inner env w uid q sid file).1 = .ok r := by
  unfold pdf_chat
  rcases pdf_chat_inner env w uid q sid file with ⟨res, w'⟩
  cases res <;> simp

/-- A successful body determines the whole `pdf_chat` result. -/
theorem pdf_chat_eq_of_inner_ok (env : PdfEnv) (w : World) (uid : String)
    (q sid : Option String) (file : Option FileUpload)
    (r : ChatpdfResponse) (w' : World)
    (h : pdf_chat_inner env w uid q sid file = (.ok r, w')) :
    pdf_chat env w uid q sid file = (.ok r, w') := by
  unfold pdf_chat
  rw [h]

/-- When the supplied session id (if any) is not a live key, a call with
a file takes the new-session branch. -/
theorem pdf_chat_inner_new (env : PdfEnv) (w : World) (uid : String)
    (query session_id : Option String) (f : FileUpload)
    (hns : ∀ s, session_id = some s → s ≠ "" →
      lookupSession w.sessions s = none) :
    pdf_chat_inner env w uid query session_id (some f) =
      pdf_chat_new env w uid query f := by
  simp only [pdf_chat_inner]
  split
  · next ht =>
    cases session_id with
    | none => simp [truthy] at ht
    | some s =>
      have hs : s ≠ "" := by simpa [truthy] using ht
      simp only [Option.getD_some]
      rw [hns s rfl hs]
  · rfl

/-- Claim C4: a `pdf_chat` call with a file whose session id (if any)
is unknown generates a fresh session id, processes and indexes the
file, adds a fresh `active_sessions` entry holding `user_id`,
`temp_file_path`, `table_name` and `created_at`, and responds with the
fresh id and `is_new_session = True`. -/
theorem pdf_chat_new_session_adds_entry (env : PdfEnv) (w : World)
    (user_id : String) (query session_id : Option String) (f : FileUpload)
    (s3 : S3Result) (tbl : String)
    (hns : ∀ s, session_id = some s → s ≠ "" →
      lookupSession w.sessions s = none)
    (hsv : env.saveUpload = .ok ())
    (hup : env.s3Upload (MEDICAL_PDF_DOMAIN ++ "/" ++ userFolderStr user_id)
      (tempPath env.transactionId f.filename) f.filename = .ok s3)
    (hct : env.createTable f.filename = .ok tbl) :
    lookupSession
      (pdf_chat env w user_id query session_id (some f)).2.sessions
      env.freshSessionId =
      some ⟨user_id, tempPath env.transactionId f.filename, tbl, env.now⟩ ∧
    (∀ k, k ≠ env.freshSessionId →
      lookupSession (pdf_chat env w user_id query session_id (some f)).2.sessions k =
        lookupSession w.sessions k) ∧
    (pdf_chat env w user_id query session_id (some f)).2.files =
      addName w.files (tempPath env.transactionId f.filename) ∧
    (pdf_chat env w user_id query session_id (some f)).2.tables =
      addName w.tables tbl ∧
    (pdf_chat env w user_id query session_id (some f)).2.uploads =
      w.uploads ++ [⟨MEDICAL_PDF_DOMAIN ++ "/" ++ userFolderStr user_id,
        tempPath env.transactionId f.filename, f.filename⟩] ∧
    (∀ resp, (pdf_chat env w user_id query session_id (some f)).1 = .ok resp →
      resp.session_id = env.freshSessionId ∧ resp.is_new_session = true ∧
      resp.table_name = tbl) ∧
    (query = none →
      (pdf_chat env w user_id query session_id (some f)).1 =
        .ok ⟨env.freshSessionId, none,
          some "Document processed and indexed. Send a query to get answers.",
          true, tbl⟩) ∧
    (∀ q qa, query = some q → q ≠ "" →
      env.getAnswer (tempPath env.transactionId f.filename) q tbl = .ok qa →
      (pdf_chat env w user_id query session_id (some f)).1 =
        .ok ⟨env.freshSessionId, qa.answer, qa.message, true, tbl⟩) := by
  have hinner := pdf_chat_inner_new env w user_id query session_id f hns
  have hp := process_file_ok env w f user_id s3 tbl hsv hup hct
  have hnew : pdf_chat_new env w user_id query f =
      pdf_chat_answer env
        { sessions := setSession w.sessions env.freshSessionId
            ⟨user_id, tempPath env.transactionId f.filename, tbl, env.now⟩,
          files := addName w.files (tempPath env.transactionId f.filename),
          tables := addName w.tables tbl,
          uploads := w.uploads ++ [⟨MEDICAL_PDF_DOMAIN ++ "/" ++
            userFolderStr user_id,
            tempPath env.transactionId f.filename, f.filename⟩] }
        env.freshSessionId query (tempPath env.transactionId f.filename)
        tbl true := by
    simp only [pdf_chat_new, hp]
  have hworld : (pdf_chat env w user_id query session_id (some f)).2 =
      { sessions := setSession w.sessions env.freshSessionId
          ⟨user_id, tempPath env.transactionId f.filename, tbl, env.now⟩,
        files := addName w.files (tempPath env.transactionId f.filename),
        tables := addName w.tables tbl,
        uploads := w.uploads ++ [⟨MEDICAL_PDF_DOMAIN ++ "/" ++
          userFolderStr user_id,
          tempPath env.transactionId f.filename, f.filename⟩] } := by
    rw [pdf_chat_world, hinner, hnew, pdf_chat_answer_world]
  refine ⟨?_, ?_, ?_, ?_, ?_, ?_, ?_, ?_⟩
  · rw [hworld]
    show lookupSession (setSession w.sessions env.freshSessionId _)
      env.freshSessionId = _
    rw [lookupSession_setSession]
    simp
  · intro k hk
    rw [hworld]
    show lookupSession (setSession w.sessions env.freshSessionId _) k = _
    rw [lookupSession_setSession, if_neg (Ne.symm hk)]
  · rw [hworld]
  · rw [hworld]
  · rw [hworld]
  · intro resp hresp
    rw [pdf_chat_fst_ok, hinner, hnew] at hresp
    exact pdf_chat_answer_ok_shape env _ env.freshSessionId query
      (tempPath env.transactionId f.filename) tbl true resp hresp
  · intro hq
    subst hq
    have hi : pdf_chat_inner env w user_id none session_id (some f) =
        (.ok ⟨env.freshSessionId, none,
          some "Document processed and indexed. Send a query to get answers.",
          true, tbl⟩,
        { sessions := setSession w.sessions env.freshSessionId
            ⟨user_id, tempPath env.transactionId f.filename, tbl, env.now⟩,
          files := addName w.files (tempPath env.transactionId f.filename),
          tables := addName w.tables tbl,
          uploads := w.uploads ++ [⟨MEDICAL_PDF_DOMAIN ++ "/" ++
            userFolderStr user_id,
            tempPath env.transactionId f.filename, f.filename⟩] }) := by
      rw [hinner, hnew]
      exact pdf_chat_answer_none env _ env.freshSessionId
        (tempPath env.transactionId f.filename) tbl true
    rw [pdf_chat_eq_of_inner_ok env w user_id none session_id (some f) _ _ hi]
  · intro q qa hq hq' hga
    subst hq
    have hi : pdf_chat_inner env w user_id (some q) session_id (some f) =
        (.ok ⟨env.freshSessionId, qa.answer, qa.message, true, tbl⟩,
        { sessions := setSession w.sessions env.freshSessionId
            ⟨user_id, tempPath env.transactionId f.filename, tbl, env.now⟩,
          files := addName w.files (tempPath env.transactionId f.filename),
          tables := addName w.tables tbl,
          uploads := w.uploads ++ [⟨MEDICAL_PDF_DOMAIN ++ "/" ++
            userFolderStr user_id,
            tempPath env.transactionId f.filename, f.filename⟩] }) := by
      rw [hinner, hnew]
      exact pdf_chat_answer_ok env _ env.freshSessionId q
        (tempPath env.transactionId f.filename) tbl true qa hq' hga
    rw [pdf_chat_eq_of_inner_ok env w user_id (some q) session_id (some f) _ _ hi]

/-- Membership after adding a name. -/
theorem mem_addName_iff (xs : List String) (x y : String) :
    y ∈ addName xs x ↔ y ∈ xs ∨ y = x := by
  unfold addName
  split
  · next hx =>
    constructor
    · exact Or.inl
    · rintro (h | rfl)
      · exact h
      · exact hx
  · simp [List.mem_cons, or_comm]

/-- Membership after removing a name. -/
theorem mem_removeName_iff (xs : List String) (x y : String) :
    y ∈ removeName xs x ↔ y ∈ xs ∧ y ≠ x := by
  simp [removeName, List.mem_filter]

/-- Claim C5: a `pdf_chat` call with both a file and a live session id
drops the session's old table, indexes the new file, updates the same
entry's `temp_file_path` and `table_name` in place — `user_id` and
`created_at` unchanged, the key set of `active_sessions` unchanged —
and responds with the same session id and `is_new_session = False`. -/
theorem pdf_chat_replace_updates_entry (env : PdfEnv) (w : World)
    (user_id : String) (query : Option String) (sid : String)
    (entry : SessionEntry) (f : FileUpload) (s3 : S3Result) (tbl : String)
    (hsid : sid ≠ "")
    (hlk : lookupSession w.sessions sid = some entry)
    (hclean : env.cleanupTable entry.table_name = .ok ())
    (hsv : env.saveUpload = .ok ())
    (hup : env.s3Upload (MEDICAL_PDF_DOMAIN ++ "/" ++ userFolderStr user_id)
      (tempPath env.transactionId f.filename) f.filename = .ok s3)
    (hct : env.createTable f.filename = .ok tbl) :
    lookupSession (pdf_chat env w user_id query (some sid) (some f)).2.sessions
      sid = some ⟨entry.user_id, tempPath env.transactionId f.filename, tbl,
        entry.created_at⟩ ∧
    (∀ k, k ≠ sid →
      lookupSession (pdf_chat env w user_id query (some sid) (some f)).2.sessions k =
        lookupSession w.sessions k) ∧
    (∀ k, (lookupSession
        (pdf_chat env w user_id query (some sid) (some f)).2.sessions k).isSome =
      (lookupSession w.sessions k).isSome) ∧
    (tbl ≠ entry.table_name →
      entry.table_name ∉
        (pdf_chat env w user_id query (some sid) (some f)).2.tables) ∧
    (pdf_chat env w user_id query (some sid) (some f)).2.files =
      addName w.files (tempPath env.transactionId f.filename) ∧
    (∀ resp,
      (pdf_chat env w user_id query (some sid) (some f)).1 = .ok resp →
      resp.session_id = sid ∧ resp.is_new_session = false ∧
      resp.table_name = tbl) ∧
    (query = none →
      (pdf_chat env w user_id query (some sid) (some f)).1 =
        .ok ⟨sid, none,
          some "Document processed and indexed. Send a query to get answers.",
          false, tbl⟩) ∧
    (∀ q qa, query = some q → q ≠ "" →
      env.getAnswer (tempPath env.transactionId f.filename) q tbl = .ok qa →
      (pdf_chat env w user_id query (some sid) (some f)).1 =
        .ok ⟨sid, qa.answer, qa.message, false, tbl⟩) := by
  have hex := pdf_chat_inner_existing env w user_id query sid entry (some f)
    hsid hlk
  have hp := process_file_ok env
    { w with tables := removeName w.tables entry.table_name } f user_id s3 tbl
    hsv hup hct
  have hrepl : pdf_chat_existing env w user_id query sid entry (some f) =
      pdf_chat_answer env
        { sessions := setSession w.sessions sid
            ⟨entry.user_id, tempPath env.transactionId f.filename, tbl,
              entry.created_at⟩,
          files := addName w.files (tempPath env.transactionId f.filename),
          tables := addName (removeName w.tables entry.table_name) tbl,
          uploads := w.uploads ++ [⟨MEDICAL_PDF_DOMAIN ++ "/" ++
            userFolderStr user_id,
            tempPath env.transactionId f.filename, f.filename⟩] }
        sid query (tempPath env.transactionId f.filename) tbl false := by
    simp only [pdf_chat_existing, hclean, hp]
  have hworld : (pdf_chat env w user_id query (some sid) (some f)).2 =
      { sessions := setSession w.sessions sid
          ⟨entry.user_id, tempPath env.transactionId f.filename, tbl,
            entry.created_at⟩,
        files := addName w.files (tempPath env.transactionId f.filename),
        tables := addName (removeName w.tables entry.table_name) tbl,
        uploads := w.uploads ++ [⟨MEDICAL_PDF_DOMAIN ++ "/" ++
          userFolderStr user_id,
          tempPath env.transactionId f.filename, f.filename⟩] } := by
    rw [pdf_chat_world, hex, hrepl, pdf_chat_answer_world]
  refine ⟨?_, ?_, ?_, ?_, ?_, ?_, ?_, ?_⟩
  · rw [hworld]
    show lookupSession (setSession w.sessions sid _) sid = _
    rw [lookupSession_setSession]
    simp
  · intro k hk
    rw [hworld]
    show lookupSession (setSession w.sessions sid _) k = _
    rw [lookupSession_setSession, if_neg (Ne.symm hk)]
  · intro k
    rw [hworld]
    show (lookupSession (setSession w.sessions sid _) k).isSome = _
    rw [lookupSession_setSession]
    split
    · next h => subst h; rw [hlk]; rfl
    · rfl
  · intro hne
    rw [hworld]
    show entry.table_name ∉ addName (removeName w.tables entry.table_name) tbl
    rw [mem_addName_iff, mem_removeName_iff]
    rintro (⟨_, h⟩ | h)
    · exact h rfl
    · exact hne h.symm
  · rw [hworld]
  · intro resp hresp
    rw [pdf_chat_fst_ok, hex, hrepl] at hresp
    exact pdf_chat_answer_ok_shape env _ sid query
      (tempPath env.transactionId f.filename) tbl false resp hresp
  · intro hq
    subst hq
    have hi := pdf_chat_answer_none env
      { sessions := setSession w.sessions sid
          ⟨entry.user_id, tempPath env.transactionId f.filename, tbl,
            entry.created_at⟩,
        files := addName w.files (tempPath env.transactionId f.filename),
        tables := addName (removeName w.tables entry.table_name) tbl,
        uploads := w.uploads ++ [⟨MEDICAL_PDF_DOMAIN ++ "/" ++
          userFolderStr user_id,
          tempPath env.transactionId f.filename, f.filename⟩] }
      sid (tempPath env.transactionId f.filename) tbl false
    rw [pdf_chat_eq_of_inner_ok env w user_id none (some sid) (some f) _ _
      (by rw [hex, hrepl]; exact hi)]
  · intro q qa hq hq' hga
    subst hq
    have hi := pdf_chat_answer_ok env
      { sessions := setSession w.sessions sid
          ⟨entry.user_id, tempPath env.transactionId f.filename, tbl,
            entry.created_at⟩,
        files := addName w.files (tempPath env.transactionId f.filename),
        tables := addName (removeName w.tables entry.table_name) tbl,
        uploads := w.uploads ++ [⟨MEDICAL_PDF_DOMAIN ++ "/" ++
          userFolderStr user_id,
          tempPath env.transactionId f.filename, f.filename⟩] }
      sid q (tempPath env.transactionId f.filename) tbl false qa hq' hga
    rw [pdf_chat_eq_of_inner_ok env w user_id (some q) (some sid) (some f) _ _
      (by rw [hex, hrepl]; exact hi)]

/-- Concrete environment for the C4 witness. -/
def c4Env : PdfEnv :=
  ⟨"tid", "fresh", 7, .ok (), fun _ _ _ => .ok ⟨"uri", "b", "k"⟩,
   fun _ => .ok "tblX", fun _ => .ok (),
   fun _ _ _ => .ok ⟨some "ans", none⟩⟩

/-- Concrete world for the C4 witness. -/
def c4World : World := ⟨[], [], [], []⟩

/-- Witness for C4 at an empty session store. -/
theorem pdf_chat_new_session_adds_entry_witness :
    lookupSession (pdf_chat c4Env c4World "u" none none
      (some ⟨"f.pdf", "x"⟩)).2.sessions "fresh" =
      some ⟨"u", tempPath "tid" "f.pdf", "tblX", 7⟩ ∧
    (pdf_chat c4Env c4World "u" none none (some ⟨"f.pdf", "x"⟩)).1 =
      .ok ⟨"fresh", none,
        some "Document processed and indexed. Send a query to get answers.",
        true, "tblX"⟩ :=
  ⟨(pdf_chat_new_session_adds_entry c4Env c4World "u" none none
      ⟨"f.pdf", "x"⟩ ⟨"uri", "b", "k"⟩ "tblX"
      (fun _ hs _ => Option.noConfusion hs) rfl rfl rfl).1,
   (pdf_chat_new_session_adds_entry c4Env c4World "u" none none
      ⟨"f.pdf", "x"⟩ ⟨"uri", "b", "k"⟩ "tblX"
      (fun _ hs _ => Option.noConfusion hs) rfl rfl rfl).2.2.2.2.2.2.1 rfl⟩

/-- Concrete environment for the C5 witness. -/
def c5Env : PdfEnv :=
  ⟨"tid", "fresh", 7, .ok (), fun _ _ _ => .ok ⟨"uri", "b", "k"⟩,
   fun _ => .ok "tblNew", fun _ => .ok (),
   fun _ _ _ => .ok ⟨some "ans", none⟩⟩

/-- Concrete world for the C5 witness: one live session. -/
def c5World : World :=
  ⟨[("s", ⟨"u", "/tmp/old", "tblOld", 3⟩)], ["/tmp/old"], ["tblOld"], []⟩

/-- Witness for C5: replacing the document of session `s`. -/
theorem pdf_chat_replace_updates_entry_witness :
    lookupSession (pdf_chat c5Env c5World "u" none (some "s")
      (some ⟨"f.pdf", "x"⟩)).2.sessions "s" =
      some ⟨"u", tempPath "tid" "f.pdf", "tblNew", 3⟩ ∧
    (lookupSession (pdf_chat c5Env c5World "u" none (some "s")
      (some ⟨"f.pdf", "x"⟩)).2.sessions "other").isSome =
      (lookupSession c5World.sessions "other").isSome ∧
    "tblOld" ∉ (pdf_chat c5Env c5World "u" none (some "s")
      (some ⟨"f.pdf", "x"⟩)).2.tables ∧
    (pdf_chat c5Env c5World "u" none (some "s") (some ⟨"f.pdf", "x"⟩)).1 =
      .ok ⟨"s", none,
        some "Document processed and indexed. Send a query to get answers.",
        false, "tblNew"⟩ :=
  ⟨(pdf_chat_replace_updates_entry c5Env c5World "u" none "s"
      ⟨"u", "/tmp/old", "tblOld", 3⟩ ⟨"f.pdf", "x"⟩ ⟨"uri", "b", "k"⟩ "tblNew"
      (by decide) rfl rfl rfl rfl rfl).1,
   (pdf_chat_replace_updates_entry c5Env c5World "u" none "s"
      ⟨"u", "/tmp/old", "tblOld", 3⟩ ⟨"f.pdf", "x"⟩ ⟨"uri", "b", "k"⟩ "tblNew"
      (by decide) rfl rfl rfl rfl rfl).2.2.1 "other",
   (pdf_chat_replace_updates_entry c5Env c5World "u" none "s"
      ⟨"u", "/tmp/old", "tblOld", 3⟩ ⟨"f.pdf", "x"⟩ ⟨"uri", "b", "k"⟩ "tblNew"
      (by decide) rfl rfl rfl rfl rfl).2.2.2.1 (by decide),
   (pdf_chat_replace_updates_entry c5Env c5World "u" none "s"
      ⟨"u", "/tmp/old", "tblOld", 3⟩ ⟨"f.pdf", "x"⟩ ⟨"uri", "b", "k"⟩ "tblNew"
      (by decide) rfl rfl rfl rfl rfl).2.2.2.2.2.2.1 rfl⟩

/-- Removing a name after adding it leaves only pre-existing names. -/
theorem mem_removeName_addName (fs : List String) (x p : String)
    (h : p ∈ removeName (addName fs x) x) : p ∈ fs := by
  rcases (mem_removeName_iff _ _ _).1 h with ⟨hin, hne⟩
  rcases (mem_addName_iff _ _ _).1 hin with h2 | h2
  · exact h2
  · exact absurd h2 hne

/-- The cleanup fold only removes names. -/
theorem mem_removeAllNames (paths : List String) (fs : List String)
    (p : String) (h : p ∈ removeAllNames fs paths) : p ∈ fs := by
  induction paths generalizing fs with
  | nil => exact h
  | cons q rest ih =>
    have h2 := ih (removeName fs q) h
    exact ((mem_removeName_iff fs q p).1 h2).1

/-- Every name in the cleanup list is gone after the cleanup fold. -/
theorem not_mem_removeAllNames (paths : List String) (fs : List String)
    (p : String) (hp : p ∈ paths) : p ∉ removeAllNames fs paths := by
  induction paths generalizing fs with
  | nil => cases hp
  | cons q rest ih =>
    intro hmem
    rcases List.mem_cons.mp hp with rfl | hp'
    · exact ((mem_removeName_iff fs p p).1
        (mem_removeAllNames rest _ p hmem)).2 rfl
    · exact ih (removeName fs q) hp' hmem

/-- The S3 loop of `multi_document_summary` does not touch disk files. -/
theorem multi_s3_files (env : SummaryEnv) (d : String) :
    ∀ (l : List (FileUpload × String)) (w : World),
    (multi_s3 env d w l).2.files = w.files := by
  intro l
  induction l with
  | nil => intro w; rfl
  | cons fp rest ih =>
    intro w
    obtain ⟨f, path⟩ := fp
    simp only [multi_s3]
    cases hs : env.s3Upload d path f.filename with
    | error m => rfl
    | ok s3 =>
      dsimp only
      rcases hr : multi_s3 env d
          { w with uploads := w.uploads ++ [⟨d, path, f.filename⟩] } rest
        with ⟨res, w'⟩
      have h2 := ih { w with uploads := w.uploads ++ [⟨d, path, f.filename⟩] }
      rw [hr] at h2
      cases res with
      | error m => exact h2
      | ok infos => exact h2

/-- Any file on disk after the save loop was there before or is one of
the accumulated temp paths. -/
theorem multi_save_mem_files (env : SummaryEnv) :
    ∀ (files : List FileUpload) (w : World) (p : String),
    p ∈ (multi_save env w files).2.2.files →
    p ∈ w.files ∨ p ∈ (multi_save env w files).2.1 := by
  intro files
  induction files with
  | nil => intro w p h; exact Or.inl h
  | cons f fs ih =>
    intro w p
    cases hs : env.saveUpload (tempPath env.transactionId f.filename) with
    | error m =>
      simp only [multi_save, hs]
      exact Or.inl
    | ok u =>
      simp only [multi_save, hs]
      rcases hr : multi_save env { w with files := addName w.files (tempPath env.transactionId f.filename) } fs
        with ⟨res, paths, w'⟩
      intro h
      have h2 := ih { w with files := addName w.files (tempPath env.transactionId f.filename) } p
      rw [hr] at h2
      rcases h2 h with hin | hin
      · rcases (mem_addName_iff _ _ _).1 hin with h3 | h3
        · exact Or.inl h3
        · exact Or.inr (by rw [h3]; exact List.mem_cons_self _ _)
      · exact Or.inr (List.mem_cons_of_mem _ hin)

/-- When every save succeeds the accumulated paths are exactly the temp
paths of the uploaded files. -/
theorem multi_save_paths_of_ok (env : SummaryEnv) :
    ∀ (files : List FileUpload) (w : World),
    (∀ f ∈ files,
      env.saveUpload (tempPath env.transactionId f.filename) = .ok ()) →
    (multi_save env w files).2.1 =
      files.map (fun f => tempPath env.transactionId f.filename) := by
  intro files
  induction files with
  | nil => intro w _; rfl
  | cons f fs ih =>
    intro w hall
    have hf := hall f (List.mem_cons_self f fs)
    simp only [multi_save, hf]
    rcases hr : multi_save env { w with files := addName w.files (tempPath env.transactionId f.filename) } fs
      with ⟨res, paths, w'⟩
    have h2 := ih { w with files := addName w.files (tempPath env.transactionId f.filename) }
      (fun g hg => hall g (List.mem_cons_of_mem f hg))
    rw [hr] at h2
    simpa using h2

/-- Whatever the outcome, the final disk state of
`multi_document_summary` is the post-save state with every accumulated
temp path removed (the `finally:` loop). -/
theorem multi_summary_final_files (env : SummaryEnv) (w : World)
    (files : List FileUpload) (ts : String) (uid : Option String) :
    (multi_document_summary env w files ts uid).2.files =
      removeAllNames (multi_save env w files).2.2.files
        (multi_save env w files).2.1 := by
  simp only [multi_document_summary]
  rcases hms : multi_save env w files with ⟨res, paths, w1⟩
  cases res with
  | error m => rfl
  | ok u =>
    dsimp only
    rcases hs3 : multi_s3 env (MEDICAL_PDF_DOMAIN ++ "/" ++ userFolder uid)
        w1 (files.zip paths) with ⟨res2, w2⟩
    have hw2 : w2.files = w1.files := by
      have h2 := multi_s3_files env (MEDICAL_PDF_DOMAIN ++ "/" ++
        userFolder uid) (files.zip paths) w1
      rw [hs3] at h2
      exact h2
    cases res2 with
    | error m =>
      show removeAllNames w2.files paths = removeAllNames w1.files paths
      rw [hw2]
    | ok infos =>
      dsimp only
      cases env.getPrompts ts with
      | error m =>
        show removeAllNames w2.files paths = removeAllNames w1.files paths
        rw [hw2]
      | ok pr =>
        dsimp only
        cases env.summarizeMulti paths with
        | error m =>
          show removeAllNames w2.files paths = removeAllNames w1.files paths
          rw [hw2]
        | ok s =>
          show removeAllNames w2.files paths = removeAllNames w1.files paths
          rw [hw2]

/-- The temp file of `single_document_summary` is gone on every path:
each branch runs the `finally:` removal. -/
theorem single_summary_temp_removed (env : SummaryEnv) (w : World)
    (file : FileUpload) (ts : String) (uid : Option String) :
    tempPath env.transactionId file.filename ∉
      (single_document_summary env w file ts uid).2.files := by
  simp only [single_document_summary]
  repeat' split
  all_goals intro hmem
  all_goals exact ((mem_removeName_iff _ _ _).1 hmem).2 rfl

/-- `single_document_summary` leaves no new file on disk. -/
theorem single_summary_files_subset (env : SummaryEnv) (w : World)
    (file : FileUpload) (ts : String) (uid : Option String) (p : String)
    (h : p ∈ (single_document_summary env w file ts uid).2.files) :
    p ∈ w.files := by
  simp only [single_document_summary] at h
  repeat' split at h
  all_goals first
    | exact ((mem_removeName_iff _ _ _).1 h).1
    | exact mem_removeName_addName _ _ _ h

/-- `deep_audio_notes` leaves no new file on disk. -/
theorem deep_audio_files_subset (env : AudioEnv) (w : World)
    (rt : Option String) (p : String)
    (h : p ∈ (deep_audio_notes env w rt).2.files) : p ∈ w.files := by
  simp only [deep_audio_notes] at h
  repeat' split at h
  all_goals first
    | exact h
    | exact mem_removeName_addName _ _ _ h

/-- Once the audio temp file is created (non-empty read), the
`finally:` removes it whether the chain succeeds or raises. -/
theorem deep_audio_temp_removed (env : AudioEnv) (w : World)
    (rt : Option String) (contents : String)
    (hr : env.readAudio = .ok contents) (hne : contents ≠ "") :
    env.tempName ∉ (deep_audio_notes env w rt).2.files := by
  intro hmem
  simp only [deep_audio_notes, hr] at hmem
  split at hmem
  · next hceq => exact hne hceq
  · split at hmem
    all_goals exact ((mem_removeName_iff _ _ _).1 hmem).2 rfl

/-- Claim C7: for `single_document_summary`, `multi_document_summary`
and `deep_audio_notes`, the temporary files created for the upload no
longer exist after the endpoint returns — the delete-temp-file step
runs on the success path and on every exception path — and no endpoint
leaves any file on disk that was not there before. -/
theorem temp_files_removed_after_return :
    (∀ (env : SummaryEnv) (w : World) (file : FileUpload) (ts : String)
      (uid : Option String),
      tempPath env.transactionId file.filename ∉
        (single_document_summary env w file ts uid).2.files) ∧
    (∀ (env : SummaryEnv) (w : World) (file : FileUpload) (ts : String)
      (uid : Option String) (p : String),
      p ∈ (single_document_summary env w file ts uid).2.files →
      p ∈ w.files) ∧
    (∀ (env : SummaryEnv) (w : World) (files : List FileUpload)
      (ts : String) (uid : Option String) (p : String),
      p ∈ (multi_document_summary env w files ts uid).2.files →
      p ∈ w.files) ∧
    (∀ (env : SummaryEnv) (w : World) (files : List FileUpload)
      (ts : String) (uid : Option String),
      (∀ f ∈ files,
        env.saveUpload (tempPath env.transactionId f.filename) = .ok ()) →
      ∀ f ∈ files,
        tempPath env.transactionId f.filename ∉
          (multi_document_summary env w files ts uid).2.files) ∧
    (∀ (env : AudioEnv) (w : World) (rt : Option String) (p : String),
      p ∈ (deep_audio_notes env w rt).2.files → p ∈ w.files) ∧
    (∀ (env : AudioEnv) (w : World) (rt : Option String) (contents : String),
      env.readAudio = .ok contents → contents ≠ "" →
      env.tempName ∉ (deep_audio_notes env w rt).2.files) := by
  refine ⟨single_summary_temp_removed, single_summary_files_subset,
    ?_, ?_, deep_audio_files_subset, deep_audio_temp_removed⟩
  · intro env w files ts uid p h
    rw [multi_summary_final_files] at h
    have h1 := mem_removeAllNames _ _ _ h
    rcases multi_save_mem_files env files w p h1 with h3 | h3
    · exact h3
    · exact absurd h (not_mem_removeAllNames _ _ _ h3)
  · intro env w files ts uid hall f hf
    rw [multi_summary_final_files]
    apply not_mem_removeAllNames
    rw [multi_save_paths_of_ok env files w hall]
    exact List.mem_map_of_mem _ hf

/-- Concrete summary environment for the C7 witness. -/
def c7SEnv : SummaryEnv :=
  ⟨"t", "d", fun _ => .ok (), fun _ _ _ => .ok ⟨"u", "b", "k"⟩,
   fun _ => .ok ("q", "m", "p"), fun _ => .ok "sum", fun _ => .ok "sum"⟩

/-- Concrete audio environment for the C7 witness. -/
def c7AEnv : AudioEnv :=
  ⟨.ok "audio", "/tmp/a.wav", fun _ _ => .ok ⟨"txt", "en", "p", "segs",
    some "note", none⟩⟩

/-- Concrete world for the C7 witness: one pre-existing file. -/
def c7World : World := ⟨[], ["keep.txt"], [], []⟩

/-- Witness for C7 at concrete uploads. -/
theorem temp_files_removed_after_return_witness :
    tempPath "t" "f.pdf" ∉
      (single_document_summary c7SEnv c7World ⟨"f.pdf", "x"⟩ "clinical"
        none).2.files ∧
    "keep.txt" ∈ c7World.files ∧
    "keep.txt" ∈ c7World.files ∧
    tempPath "t" "f.pdf" ∉
      (multi_document_summary c7SEnv c7World [⟨"f.pdf", "x"⟩] "clinical"
        none).2.files ∧
    "keep.txt" ∈ c7World.files ∧
    "/tmp/a.wav" ∉ (deep_audio_notes c7AEnv c7World none).2.files :=
  ⟨temp_files_removed_after_return.1 c7SEnv c7World ⟨"f.pdf", "x"⟩
    "clinical" none,
   temp_files_removed_after_return.2.1 c7SEnv c7World ⟨"f.pdf", "x"⟩
    "clinical" none "keep.txt" (by decide),
   temp_files_removed_after_return.2.2.1 c7SEnv c7World [⟨"f.pdf", "x"⟩]
    "clinical" none "keep.txt" (by decide),
   temp_files_removed_after_return.2.2.2.1 c7SEnv c7World [⟨"f.pdf", "x"⟩]
    "clinical" none (fun _ _ => rfl) ⟨"f.pdf", "x"⟩ (by decide),
   temp_files_removed_after_return.2.2.2.2.1 c7AEnv c7World none "keep.txt"
    (by decide),
   temp_files_removed_after_return.2.2.2.2.2 c7AEnv c7World none "audio"
    rfl (by decide)⟩

/-- Concrete environment for the C8 counterexample and witness. -/
def c8Env : SummaryEnv :=
  ⟨"t", "d", fun _ => .ok (), fun _ _ _ => .ok ⟨"uri", "bkt", "k"⟩,
   fun _ => .ok ("q", "m", "p"), fun _ => .ok "sum", fun _ => .ok "sum"⟩

/-- Concrete world for the C8 counterexample and witness. -/
def c8World : World := ⟨[], [], [], []⟩

/-- Counterexample to C8 as stated: with a present-but-empty
`user_id = ""` the upload goes to domain `medical_pdfs/anonymous`,
not to `medical_pdfs/<user_id>` (which would be `medical_pdfs/`):
Python truthiness routes the empty string to the anonymous folder. -/
theorem single_summary_domain_counterexample :
    (single_document_summary c8Env c8World ⟨"a.pdf", "x"⟩ "clinical_notes"
      (some "")).2.uploads =
      [⟨"medical_pdfs/anonymous", tempPath "t" "a.pdf", "a.pdf"⟩] ∧
    ("medical_pdfs/anonymous" : String) ≠ "medical_pdfs/" ++ "" := by
  constructor
  · rfl
  · decide

/-- Claim C8 (amended): a successful `single_document_summary` call
persists the upload to S3 under `medical_pdfs/<user_id>` when the
user id is present and non-empty, and under `medical_pdfs/anonymous`
when it is absent or empty; the upload happens before the summary is
generated (it is recorded even when the summarizer raises), and the
response carries exactly the upload's `s3_uri`, `bucket` and `key`
together with the summary and the original file name. -/
theorem single_summary_s3_then_response (env : SummaryEnv) (w : World)
    (file : FileUpload) (ts : String) (uid : Option String) (s3 : S3Result)
    (hsv : env.saveUpload (tempPath env.transactionId file.filename) = .ok ())
    (hup : env.s3Upload (MEDICAL_PDF_DOMAIN ++ "/" ++ userFolder uid)
      (tempPath env.transactionId file.filename) file.filename = .ok s3) :
    (⟨MEDICAL_PDF_DOMAIN ++ "/" ++ userFolder uid,
      tempPath env.transactionId file.filename, file.filename⟩ : S3Record) ∈
      (single_document_summary env w file ts uid).2.uploads ∧
    (∀ pr summary, env.getPrompts ts = .ok pr →
      env.summarize (tempPath env.transactionId file.filename) = .ok summary →
      (single_document_summary env w file ts uid).1 =
        .ok ⟨env.documentId, file.filename, s3.s3_uri, s3.bucket, s3.key,
          summary, ts, env.transactionId, userFolder uid⟩) ∧
    userFolder none = "anonymous" ∧
    (∀ s, s ≠ "" → userFolder (some s) = s) ∧
    userFolder (some "") = "anonymous" := by
  refine ⟨?_, ?_, rfl, ?_, rfl⟩
  · simp only [single_document_summary, hsv, hup]
    repeat' split
    all_goals simp
  · intro pr summary hgp hsm
    simp only [single_document_summary, hsv, hup, hgp, hsm]
  · intro s hs
    simp [userFolder, hs]

/-- Witness for the amended C8 at a concrete anonymous upload. -/
theorem single_summary_s3_then_response_witness :
    (⟨"medical_pdfs/anonymous", tempPath "t" "a.pdf", "a.pdf"⟩ : S3Record) ∈
      (single_document_summary c8Env c8World ⟨"a.pdf", "x"⟩ "clinical_notes"
        none).2.uploads ∧
    (single_document_summary c8Env c8World ⟨"a.pdf", "x"⟩ "clinical_notes"
      none).1 =
      .ok ⟨"d", "a.pdf", "uri", "bkt", "k", "sum", "clinical_notes", "t",
        "anonymous"⟩ :=
  ⟨(single_summary_s3_then_response c8Env c8World ⟨"a.pdf", "x"⟩
      "clinical_notes" none ⟨"uri", "bkt", "k"⟩ rfl rfl).1,
   (single_summary_s3_then_response c8Env c8World ⟨"a.pdf", "x"⟩
      "clinical_notes" none ⟨"uri", "bkt", "k"⟩ rfl rfl).2.1
     ("q", "m", "p") "sum" rfl rfl⟩

/-- With a truthy query and a raising chain call, `pdf_chat_answer`
propagates the exception. -/
theorem pdf_chat_answer_err (env : PdfEnv) (w : World) (sid : String)
    (q path table : String) (b : Bool) (m : String)
    (hq : q ≠ "") (ha : env.getAnswer path q table = .error m) :
    pdf_chat_answer env w sid (some q) path table b =
      (.error (.ext m), w) := by
  simp [pdf_chat_answer, truthy, hq, ha]

/-- A raising body determines the whole `pdf_chat` result: the outer
handler re-raises as a 500 with the stringified exception. -/
theorem pdf_chat_eq_of_inner_err (env : PdfEnv) (w : World) (uid : String)
    (q sid : Option String) (file : Option FileUpload) (e : Exc) (w' : World)
    (h : pdf_chat_inner env w uid q sid file = (.error e, w')) :
    pdf_chat env w uid q sid file = (.error ⟨500, e.toDetail⟩, w') := by
  unfold pdf_chat
  rw [h]

/-- Concrete environment for the C2 counterexample: every chain call
succeeds but the database service raises. -/
def c2SoapEnv : SoapEnv :=
  ⟨.ok "audio", "/tmp/t.wav", "fresh", "note",
   fun _ _ _ => .ok ⟨"raw text", "note text", "ts"⟩,
   .error "database connection refused"⟩

/-- Concrete world for the C2 counterexample. -/
def c2World : World := ⟨[], [], [], []⟩

/-- Counterexample to C2 as stated: in `soap_notes` an exception raised
by the `AISOAPService` database calls is caught and only logged
(`audio.py` lines 148-149) — the endpoint still returns a success
response, not an HTTPException 500. -/
theorem soap_db_exception_not_mapped_to_500 :
    (create_soap_notes_from_audio c2SoapEnv c2World "a.wav" "general" none
      "Returning Patient" "Unknown" "Standard" none none).1 =
      .ok ⟨"fresh", "note", "general", none, "raw text", "note text",
        ⟨none, "Returning Patient", "Unknown", "Standard", none⟩, "ts"⟩ := by
  rfl

/-- Claim C2 (amended): every embedded endpoint maps an exception of
its external chain call to an HTTPException 500 whose detail contains
the exception's message — except that `soap_notes` swallows exceptions
of its database-persistence service calls (logged only, the request
still succeeds); `soap_notes` still maps chain exceptions to 500. -/
theorem chain_exceptions_map_to_500 :
    (∀ (env : PdfEnv) (w : World) (uid sid : String) (entry : SessionEntry)
      (q m : String), sid ≠ "" →
      lookupSession w.sessions sid = some entry → q ≠ "" →
      env.getAnswer entry.temp_file_path q entry.table_name = .error m →
      pdf_chat env w uid (some q) (some sid) none =
        (.error ⟨500, m⟩, w)) ∧
    (∀ (env : PdfEnv) (w : World) (sid : String) (entry : SessionEntry)
      (m : String),
      lookupSession w.sessions sid = some entry →
      env.cleanupTable entry.table_name = .error m →
      cleanup_session env w sid = (.error ⟨500, m⟩, w)) ∧
    (∀ (env : SummaryEnv) (w : World) (file : FileUpload) (ts : String)
      (uid : Option String) (s3 : S3Result) (pr : String × String × String)
      (m : String),
      env.saveUpload (tempPath env.transactionId file.filename) = .ok () →
      env.s3Upload (MEDICAL_PDF_DOMAIN ++ "/" ++ userFolder uid)
        (tempPath env.transactionId file.filename) file.filename = .ok s3 →
      env.getPrompts ts = .ok pr →
      env.summarize (tempPath env.transactionId file.filename) = .error m →
      (single_document_summary env w file ts uid).1 = .error ⟨500, m⟩) ∧
    (∀ (env : SummaryEnv) (w : World) (files : List FileUpload)
      (ts : String) (uid : Option String) (paths : List String) (w1 : World)
      (infos : List FileInfo) (w2 : World) (pr : String × String × String)
      (m : String),
      multi_save env w files = (.ok (), paths, w1) →
      multi_s3 env (MEDICAL_PDF_DOMAIN ++ "/" ++ userFolder uid) w1
        (files.zip paths) = (.ok infos, w2) →
      env.getPrompts ts = .ok pr →
      env.summarizeMulti paths = .error m →
      (multi_document_summary env w files ts uid).1 = .error ⟨500, m⟩) ∧
    (∀ (env : AudioEnv) (w : World) (rt : Option String)
      (contents m : String),
      env.readAudio = .ok contents → contents ≠ "" →
      env.transcribe env.tempName
        (if truthy rt then rt.getD "" else "clinical") = .error m →
      (deep_audio_notes env w rt).1 =
        .error ⟨500, "Failed to process audio: " ++ m⟩) ∧
    (∀ (env : ChatEnv) (input : ChatbotInput) (m : String),
      env.processQuery input.query = .error m →
      healthcare_chat env input =
        .error ⟨500, "An error occurred while processing your request: " ++ m⟩) ∧
    (∀ (env : SoapEnv) (w : World) (fn template : String)
      (pn : Option String) (vt prn nl : String)
      (pc sid : Option String) (contents m : String),
      fn ≠ "" → template ∈ ["general", "lite", "combined_ap", "detailed"] →
      env.readAudio = .ok contents → contents ≠ "" →
      env.soapAnswer env.tempName template ⟨pn, vt, prn, nl, pc⟩ = .error m →
      (create_soap_notes_from_audio env w fn template pn vt prn nl pc sid).1 =
        .error ⟨500, "Failed to generate SOAP notes: " ++ m⟩) ∧
    (∀ (env : SoapEnv) (w : World) (fn template : String)
      (pn : Option String) (vt prn nl : String)
      (pc sid : Option String) (contents m : String) (r : SoapResult),
      fn ≠ "" → template ∈ ["general", "lite", "combined_ap", "detailed"] →
      env.readAudio = .ok contents → contents ≠ "" →
      env.soapAnswer env.tempName template ⟨pn, vt, prn, nl, pc⟩ = .ok r →
      r.raw_transcription ≠ "" →
      env.dbCreateSession = .error m →
      (create_soap_notes_from_audio env w fn template pn vt prn nl pc sid).1 =
        .ok ⟨(if truthy sid then sid.getD "" else env.freshSessionId),
          env.freshNoteId, template, pn, r.raw_transcription,
          r.clinical_note, ⟨pn, vt, prn, nl, pc⟩, r.timestamp⟩) ∧
    (∀ (env : GatewayEnv) (input : ChatbotInput) (m : String),
      env.routeMedicalChat input = .error m →
      medical_chat_gateway env input =
        .error ⟨500, "Gateway error: " ++ m⟩) := by
  refine ⟨?_, ?_, ?_, ?_, ?_, ?_, ?_, ?_, ?_⟩
  · intro env w uid sid entry q m hsid hlk hq hga
    have hex := pdf_chat_inner_existing env w uid (some q) sid entry none
      hsid hlk
    have hans := pdf_chat_answer_err env w sid q entry.temp_file_path
      entry.table_name false m hq hga
    exact pdf_chat_eq_of_inner_err env w uid (some q) (some sid) none
      (.ext m) w (hex.trans hans)
  · intro env w sid entry m hlk hct
    simp [cleanup_session, hlk, hct]
  · intro env w file ts uid s3 pr m hsv hup hgp hsm
    simp only [single_document_summary, hsv, hup, hgp, hsm]
  · intro env w files ts uid paths w1 infos w2 pr m hms hs3 hgp hsm
    simp only [multi_document_summary, hms, hs3, hgp, hsm]
  · intro env w rt contents m hr hc htr
    simp only [deep_audio_notes, hr, htr]
    rw [if_neg hc]
  · intro env input m hpq
    simp [healthcare_chat, hpq]
  · intro env w fn template pn vt prn nl pc sid contents m hfn ht hr hc hs
    simp only [create_soap_notes_from_audio, hr, hs]
    rw [if_neg hfn, if_neg (fun hc2 => hc2 ht), if_neg hc]
  · intro env w fn template pn vt prn nl pc sid contents m r hfn ht hr hc
      hs hraw hdb
    simp only [create_soap_notes_from_audio, hr, hs, hdb]
    rw [if_neg hfn, if_neg (fun hc2 => hc2 ht), if_neg hc, if_neg hraw]
  · intro env input m h
    simp [medical_chat_gateway, h]

/-- Concrete pdf environment for the C2 witness: raising chain calls. -/
def c2PdfEnv : PdfEnv :=
  ⟨"t", "f", 0, .ok (), fun _ _ _ => .ok ⟨"u", "b", "k"⟩,
   fun _ => .ok "tb", fun _ => .error "boom", fun _ _ _ => .error "boom"⟩

/-- Concrete pdf world for the C2 witness. -/
def c2PdfWorld : World :=
  ⟨[("s", ⟨"u", "/tmp/p", "tbl", 0⟩)], [], ["tbl"], []⟩

/-- Concrete summary environment for the C2 witness: raising summarizer. -/
def c2SEnv : SummaryEnv :=
  ⟨"t", "d", fun _ => .ok (), fun _ _ _ => .ok ⟨"u", "b", "k"⟩,
   fun _ => .ok ("q", "m", "p"), fun _ => .error "boom",
   fun _ => .error "boom"⟩

/-- Concrete audio environment for the C2 witness: raising transcriber. -/
def c2AEnv : AudioEnv := ⟨.ok "audio", "/tmp/a.wav", fun _ _ => .error "boom"⟩

/-- Concrete chat environment for the C2 witness: raising agent. -/
def c2ChatEnv : ChatEnv := ⟨fun _ => .error "boom", 0⟩

/-- Concrete SOAP environment for the C2 witness: raising SOAP chain. -/
def c2SoapChainEnv : SoapEnv :=
  ⟨.ok "audio", "/tmp/t.wav", "fresh", "note", fun _ _ _ => .error "boom",
   .ok "sid1"⟩

/-- Concrete gateway environment for the C2 witness: raising routes. -/
def c2GEnv : GatewayEnv :=
  ⟨fun _ => .error "boom", fun _ _ _ _ => .error "boom",
   fun _ => .error "boom", fun _ _ => .error "boom",
   fun _ _ => .error "boom", fun _ _ _ _ _ _ _ _ => .error "boom",
   fun _ => .error "boom", fun _ _ _ => .error "boom",
   fun _ _ _ => .error "boom"⟩

/-- Witness for the amended C2 at concrete raising environments. -/
theorem chain_exceptions_map_to_500_witness :
    pdf_chat c2PdfEnv c2PdfWorld "u" (some "q") (some "s") none =
      (.error ⟨500, "boom"⟩, c2PdfWorld) ∧
    cleanup_session c2PdfEnv c2PdfWorld "s" =
      (.error ⟨500, "boom"⟩, c2PdfWorld) ∧
    (single_document_summary c2SEnv c2World ⟨"a.pdf", "x"⟩ "ts" none).1 =
      .error ⟨500, "boom"⟩ ∧
    (multi_document_summary c2SEnv c2World [⟨"a.pdf", "x"⟩] "ts" none).1 =
      .error ⟨500, "boom"⟩ ∧
    (deep_audio_notes c2AEnv c2World none).1 =
      .error ⟨500, "Failed to process audio: " ++ "boom"⟩ ∧
    healthcare_chat c2ChatEnv ⟨"q", none⟩ =
      .error ⟨500, "An error occurred while processing your request: " ++
        "boom"⟩ ∧
    (create_soap_notes_from_audio c2SoapChainEnv c2World "a.wav" "general"
      none "v" "p" "n" none none).1 =
      .error ⟨500, "Failed to generate SOAP notes: " ++ "boom"⟩ ∧
    (create_soap_notes_from_audio c2SoapEnv c2World "a.wav" "general" none
      "Returning Patient" "Unknown" "Standard" none none).1 =
      .ok ⟨"fresh", "note", "general", none, "raw text", "note text",
        ⟨none, "Returning Patient", "Unknown", "Standard", none⟩, "ts"⟩ ∧
    medical_chat_gateway c2GEnv ⟨"q", none⟩ =
      .error ⟨500, "Gateway error: " ++ "boom"⟩ :=
  ⟨chain_exceptions_map_to_500.1 c2PdfEnv c2PdfWorld "u" "s"
    ⟨"u", "/tmp/p", "tbl", 0⟩ "q" "boom" (by decide) rfl (by decide) rfl,
   chain_exceptions_map_to_500.2.1 c2PdfEnv c2PdfWorld "s"
    ⟨"u", "/tmp/p", "tbl", 0⟩ "boom" rfl rfl,
   chain_exceptions_map_to_500.2.2.1 c2SEnv c2World ⟨"a.pdf", "x"⟩ "ts"
    none ⟨"u", "b", "k"⟩ ("q", "m", "p") "boom" rfl rfl rfl rfl,
   chain_exceptions_map_to_500.2.2.2.1 c2SEnv c2World [⟨"a.pdf", "x"⟩] "ts"
    none [tempPath "t" "a.pdf"] ⟨[], [tempPath "t" "a.pdf"], [], []⟩
    [⟨"a.pdf", "u", "b", "k"⟩]
    ⟨[], [tempPath "t" "a.pdf"], [],
      [⟨"medical_pdfs/anonymous", tempPath "t" "a.pdf", "a.pdf"⟩]⟩
    ("q", "m", "p") "boom" rfl rfl rfl rfl,
   chain_exceptions_map_to_500.2.2.2.2.1 c2AEnv c2World none "audio" "boom"
    rfl (by decide) rfl,
   chain_exceptions_map_to_500.2.2.2.2.2.1 c2ChatEnv ⟨"q", none⟩ "boom" rfl,
   chain_exceptions_map_to_500.2.2.2.2.2.2.1 c2SoapChainEnv c2World "a.wav"
    "general" none "v" "p" "n" none none "audio" "boom" (by decide)
    (by decide) rfl (by decide) rfl,
   chain_exceptions_map_to_500.2.2.2.2.2.2.2.1 c2SoapEnv c2World "a.wav"
    "general" none "Returning Patient" "Unknown" "Standard" none none
    "audio" "database connection refused" ⟨"raw text", "note text", "ts"⟩
    (by decide) (by decide) rfl (by decide) rfl (by decide) rfl,
   chain_exceptions_map_to_500.2.2.2.2.2.2.2.2 c2GEnv ⟨"q", none⟩ "boom" rfl⟩

/-- Claim C9: each gateway endpoint is exactly the spec's dispatch — the
request parameters are passed unchanged to the single corresponding
`APIGateway` route method, a successful result is returned unmodified,
and any exception becomes a 500 whose detail is `"Gateway error: "`
followed by the exception's message; no scheduling, retry or
backpressure logic exists in the endpoint. -/
theorem gateway_endpoints_refine_dispatch :
    (∀ (env : GatewayEnv) (input : ChatbotInput),
      medical_chat_gateway env input =
        gateway_dispatch_spec env.routeMedicalChat input) ∧
    (∀ (env : GatewayEnv) (uid : String) (q sid : Option String)
      (f : Option FileUpload),
      pdf_chat_gateway env uid q sid f =
        gateway_dispatch_spec
          (fun a => env.routePdfChat a.1 a.2.1 a.2.2.1 a.2.2.2)
          (uid, q, sid, f)) ∧
    (∀ (env : GatewayEnv) (f : FileUpload),
      lab_extract_gateway env f =
        gateway_dispatch_spec env.routeLabExtract f) ∧
    (∀ (env : GatewayEnv) (a : FileUpload) (rt : Option String),
      audio_transcription_gateway env a rt =
        gateway_dispatch_spec
          (fun p => env.routeAudioTranscription p.1 p.2) (a, rt)) ∧
    (∀ (env : GatewayEnv) (a : FileUpload) (rt : Option String),
      deep_audio_notes_gateway env a rt =
        gateway_dispatch_spec
          (fun p => env.routeDeepAudioNotes p.1 p.2) (a, rt)) ∧
    (∀ (env : GatewayEnv) (a : FileUpload) (tt : String)
      (pn : Option String) (vt prn nl : String) (pc sid : Option String),
      soap_notes_gateway env a tt pn vt prn nl pc sid =
        gateway_dispatch_spec
          (fun p => env.routeSoapNotes p.1 p.2.1 p.2.2.1 p.2.2.2.1
            p.2.2.2.2.1 p.2.2.2.2.2.1 p.2.2.2.2.2.2.1 p.2.2.2.2.2.2.2)
          (a, tt, pn, vt, prn, nl, pc, sid)) ∧
    (∀ (env : GatewayEnv) (r : String),
      process_text_gateway env r =
        gateway_dispatch_spec env.routeProcessText r) ∧
    (∀ (env : GatewayEnv) (f : FileUpload) (ts : String)
      (uid : Option String),
      document_summary_gateway env f ts uid =
        gateway_dispatch_spec
          (fun p => env.routeDocumentSummary p.1 p.2.1 p.2.2) (f, ts, uid)) ∧
    (∀ (env : GatewayEnv) (fs : List FileUpload) (ts : String)
      (uid : Option String),
      multi_document_summary_gateway env fs ts uid =
        gateway_dispatch_spec
          (fun p => env.routeMultiDocumentSummary p.1 p.2.1 p.2.2)
          (fs, ts, uid)) ∧
    (∀ (env : GatewayEnv) (input : ChatbotInput) (out : ChatbotOutput),
      env.routeMedicalChat input = .ok out →
      medical_chat_gateway env input = .ok out) ∧
    (∀ (env : GatewayEnv) (input : ChatbotInput) (m : String),
      env.routeMedicalChat input = .error m →
      medical_chat_gateway env input =
        .error ⟨500, "Gateway error: " ++ m⟩) ∧
    (∀ (env : GatewayEnv) (uid : String) (q sid : Option String)
      (f : Option FileUpload) (out : ChatpdfResponse),
      env.routePdfChat uid q sid f = .ok out →
      pdf_chat_gateway env uid q sid f = .ok out) ∧
    (∀ (env : GatewayEnv) (uid : String) (q sid : Option String)
      (f : Option FileUpload) (m : String),
      env.routePdfChat uid q sid f = .error m →
      pdf_chat_gateway env uid q sid f =
        .error ⟨500, "Gateway error: " ++ m⟩) := by
  refine ⟨?_, ?_, ?_, ?_, ?_, ?_, ?_, ?_, ?_, ?_, ?_, ?_, ?_⟩
  · intro env input
    dsimp only [medical_chat_gateway, gateway_dispatch_spec]
    cases env.routeMedicalChat input <;> rfl
  · intro env uid q sid f
    dsimp only [pdf_chat_gateway, gateway_dispatch_spec]
    cases env.routePdfChat uid q sid f <;> rfl
  · intro env f
    dsimp only [lab_extract_gateway, gateway_dispatch_spec]
    cases env.routeLabExtract f <;> rfl
  · intro env a rt
    dsimp only [audio_transcription_gateway, gateway_dispatch_spec]
    cases env.routeAudioTranscription a rt <;> rfl
  · intro env a rt
    dsimp only [deep_audio_notes_gateway, gateway_dispatch_spec]
    cases env.routeDeepAudioNotes a rt <;> rfl
  · intro env a tt pn vt prn nl pc sid
    dsimp only [soap_notes_gateway, gateway_dispatch_spec]
    cases env.routeSoapNotes a tt pn vt prn nl pc sid <;> rfl
  · intro env r
    dsimp only [process_text_gateway, gateway_dispatch_spec]
    cases env.routeProcessText r <;> rfl
  · intro env f ts uid
    dsimp only [document_summary_gateway, gateway_dispatch_spec]
    cases env.routeDocumentSummary f ts uid <;> rfl
  · intro env fs ts uid
    dsimp only [multi_document_summary_gateway, gateway_dispatch_spec]
    cases env.routeMultiDocumentSummary fs ts uid <;> rfl
  · intro env input out h
    simp [medical_chat_gateway, h]
  · intro env input m h
    simp [medical_chat_gateway, h]
  · intro env uid q sid f out h
    simp [pdf_chat_gateway, h]
  · intro env uid q sid f m h
    simp [pdf_chat_gateway, h]

/-- Concrete succeeding gateway environment for the C9 witness. -/
def c9Env : GatewayEnv :=
  ⟨fun _ => .ok ⟨"a", true, [], false, none, 0⟩,
   fun _ _ _ _ => .ok ⟨"s", none, none, false, "t"⟩,
   fun _ => .ok "lab", fun _ _ => .ok ⟨⟨"t", "en", "p", "s"⟩, "note"⟩,
   fun _ _ => .ok ⟨⟨"t", "en", "p", "s"⟩, "note"⟩,
   fun _ _ _ _ _ _ _ _ =>
     .ok ⟨"sid", "nid", "general", none, "raw", "note",
       ⟨none, "v", "p", "n", none⟩, "ts"⟩,
   fun _ => .ok "txt", fun _ _ _ => .ok "sum", fun _ _ _ => .ok "sum"⟩

/-- Concrete failing gateway environment for the C9 witness. -/
def c9ErrEnv : GatewayEnv :=
  ⟨fun _ => .error "down", fun _ _ _ _ => .error "down",
   fun _ => .error "down", fun _ _ => .error "down",
   fun _ _ => .error "down", fun _ _ _ _ _ _ _ _ => .error "down",
   fun _ => .error "down", fun _ _ _ => .error "down",
   fun _ _ _ => .error "down"⟩

/-- Witness for C9 at concrete gateway environments. -/
theorem gateway_endpoints_refine_dispatch_witness :
    medical_chat_gateway c9Env ⟨"q", none⟩ =
      .ok ⟨"a", true, [], false, none, 0⟩ ∧
    medical_chat_gateway c9ErrEnv ⟨"q", none⟩ =
      .error ⟨500, "Gateway error: " ++ "down"⟩ ∧
    pdf_chat_gateway c9Env "u" none none none =
      .ok ⟨"s", none, none, false, "t"⟩ ∧
    pdf_chat_gateway c9ErrEnv "u" none none none =
      .error ⟨500, "Gateway error: " ++ "down"⟩ :=
  ⟨gateway_endpoints_refine_dispatch.2.2.2.2.2.2.2.2.2.1 c9Env ⟨"q", none⟩
    ⟨"a", true, [], false, none, 0⟩ rfl,
   gateway_endpoints_refine_dispatch.2.2.2.2.2.2.2.2.2.2.1 c9ErrEnv
    ⟨"q", none⟩ "down" rfl,
   gateway_endpoints_refine_dispatch.2.2.2.2.2.2.2.2.2.2.2.1 c9Env "u"
    none none none ⟨"s", none, none, false, "t"⟩ rfl,
   gateway_endpoints_refine_dispatch.2.2.2.2.2.2.2.2.2.2.2.2 c9ErrEnv "u"
    none none none "down" rfl⟩
